import Mathlib

/-!
Verification development for the LDP Label Message subsystem of
`src/ldpd/labelmapping.c` (FRR ldpd): PDU batching (`send_labelmessage`),
message decode (`recv_labelmessage`), the FEC element codec
(`gen_fec_tlv` / `tlv_decode_fec_elm` / `len_fec_tlv`) and the
optional-parameter TLV codec.

Modelling conventions:
- wire bytes are `List Nat` with every element < 256, big-endian multi-byte
  integers (`htons`/`htonl` become `be16`/`be32`);
- machine integers are `Nat`; where C truncates to a fixed width the model
  takes `% 256` per emitted byte;
- the C `struct map` (a tagged union keyed by `map.type`) is flattened into
  one structure with all fields present and zero defaults, exactly as the C
  `memset(&map, 0, sizeof(map))` leaves them;
- side effects (`session_shutdown`, `send_notification`,
  `ldpe_imsg_compose_lde`) become an ordered event list;
- the C loops that may fail to terminate on adversarial input (the sender's
  batching loop, the pseudowire sub-TLV walk) take an explicit fuel
  argument; fuel exhaustion marks exactly the inputs on which the C loops
  forever.
-/

namespace LabelMapping

/-! Wire and protocol constants (values from ldpd.h / ldp.h / mpls.h). -/

def LDP_HDR_SIZE : Nat := 10
def LDP_HDR_DEAD_LEN : Nat := 4
def LDP_MSG_SIZE : Nat := 8
def TLV_HDR_SIZE : Nat := 4

def TLV_TYPE_FEC : Nat := 0x0100
def TLV_TYPE_GENERICLABEL : Nat := 0x0200
def TLV_TYPE_ATMLABEL : Nat := 0x0201
def TLV_TYPE_FRLABEL : Nat := 0x0202
def TLV_TYPE_STATUS : Nat := 0x0300
def TLV_TYPE_HOPCOUNT : Nat := 0x0103
def TLV_TYPE_PATHVECTOR : Nat := 0x0104
def TLV_TYPE_LABELREQUEST : Nat := 0x0600
def TLV_TYPE_PW_STATUS : Nat := 0x096A
def UNKNOWN_FLAG : Nat := 0x8000

def LABEL_TLV_LEN : Nat := 4
def LABEL_TLV_SIZE : Nat := 8
def REQID_TLV_LEN : Nat := 4
def REQID_TLV_SIZE : Nat := 8
def PW_STATUS_TLV_LEN : Nat := 4
def PW_STATUS_TLV_SIZE : Nat := 8
def STATUS_TLV_LEN : Nat := 10
def STATUS_SIZE : Nat := 14

def MSG_TYPE_LABELMAPPING : Nat := 0x0400
def MSG_TYPE_LABELREQUEST : Nat := 0x0401
def MSG_TYPE_LABELWITHDRAW : Nat := 0x0402
def MSG_TYPE_LABELRELEASE : Nat := 0x0403
def MSG_TYPE_LABELABORTREQ : Nat := 0x0404

def MAP_TYPE_WILDCARD : Nat := 0x01
def MAP_TYPE_PREFIX : Nat := 0x02
def MAP_TYPE_TYPED_WCARD : Nat := 0x05
def MAP_TYPE_PWID : Nat := 0x80

def FEC_ELM_WCARD_LEN : Nat := 1
def FEC_ELM_PREFIX_MIN_LEN : Nat := 4
def FEC_ELM_TWCARD_MIN_LEN : Nat := 3
def FEC_PWID_ELM_MIN_LEN : Nat := 8
def FEC_PWID_SIZE : Nat := 4
def SUBTLV_HDR_SIZE : Nat := 2
def SUBTLV_IFMTU : Nat := 0x01
def FEC_SUBTLV_IFMTU_SIZE : Nat := 4

def CONTROL_WORD_FLAG : Nat := 0x8000
def PW_TWCARD_RESERVED_BIT : Nat := 0x8000

/-- LDP address family values on the wire (IANA). -/
def AF_IPV4 : Nat := 1
def AF_IPV6 : Nat := 2
/-- Native address family enums the decoder maps the wire values to. -/
def AF_INET : Nat := 2
def AF_INET6 : Nat := 10

def IPV4_MAX_BITLEN : Nat := 32
def IPV6_MAX_BITLEN : Nat := 128

def MPLS_LABEL_MAX : Nat := 1048575
def MPLS_LABEL_RESERVED_MAX : Nat := 15
def MPLS_LABEL_IPV4_EXPLICIT_NULL : Nat := 0
def MPLS_LABEL_IPV6_EXPLICIT_NULL : Nat := 2
def MPLS_LABEL_IMPLICIT_NULL : Nat := 3
def NO_LABEL : Nat := 4294967295

/-- Flag bits of `map.flags` (uint8_t in the C struct). -/
def F_MAP_REQ_ID : Nat := 0x01
def F_MAP_STATUS : Nat := 0x02
def F_MAP_PW_CWORD : Nat := 0x04
def F_MAP_PW_ID : Nat := 0x08
def F_MAP_PW_IFMTU : Nat := 0x10
def F_MAP_PW_STATUS : Nat := 0x20

/-- LDP status codes the subsystem raises (symbolic; the C uses uint32
constants from ldp.h). -/
inductive StatusCode where
  | badTlvLen
  | badTlvVal
  | missMsg
  | unknownFec
  | unsupAddr
  | unknownTlv
deriving Repr, DecidableEq

/-- Downstream imsg kinds for `ldpe_imsg_compose_lde` (symbolic). -/
def IMSG_NONE : Nat := 0
def IMSG_LABEL_MAPPING : Nat := 1
def IMSG_LABEL_REQUEST : Nat := 2
def IMSG_LABEL_WITHDRAW : Nat := 3
def IMSG_LABEL_RELEASE : Nat := 4
def IMSG_LABEL_ABORT : Nat := 5

/-! Byte-string helpers. -/

/-- Big-endian 2-byte encoding of a uint16 value (`htons`). -/
def be16 (v : Nat) : List Nat := [v / 256 % 256, v % 256]

/-- Big-endian 4-byte encoding of a uint32 value (`htonl`). -/
def be32 (v : Nat) : List Nat :=
  [v / 16777216 % 256, v / 65536 % 256, v / 256 % 256, v % 256]

/-- Read a big-endian uint16 at offset `i` (`ntohs` of a 2-byte memcpy).
The caller has bounds-checked `i + 1` against the validated length. -/
def be16at (l : List Nat) (i : Nat) : Nat :=
  256 * l.getD i 0 + l.getD (i + 1) 0

/-- Read a big-endian uint32 at offset `i` (`ntohl` of a 4-byte memcpy). -/
def be32at (l : List Nat) (i : Nat) : Nat :=
  16777216 * l.getD i 0 + 65536 * l.getD (i + 1) 0 +
    256 * l.getD (i + 2) 0 + l.getD (i + 3) 0

/-- `PREFIX_SIZE(x)`: bytes needed for an `x`-bit prefix, exactly the C
macro `((x)/8) + ((x) % 8 != 0 ? 1 : 0)`. -/
def PREFIX_SIZE (x : Nat) : Nat := x / 8 + (if x % 8 = 0 then 0 else 1)

/-- First `n` bytes of `l`, zero-padded to length `n`: a memcpy out of a
zero-filled fixed-size C union field. -/
def padTake (l : List Nat) (n : Nat) : List Nat :=
  (l ++ List.replicate n 0).take n

/-- Modelled from the spec: `ldp_applymask` (defined outside this file in
the ldpd utility code) masks a prefix byte string to exactly its declared
prefix-length bits, zeroing every later bit. -/
def applyMask : Nat → List Nat → List Nat
  | _, [] => []
  | plen, b :: bs =>
      (if 8 ≤ plen then b else b &&& (255 - (2 ^ (8 - plen) - 1))) ::
        applyMask (plen - 8) bs

/-! The mapping record: C `struct map` with the FEC union flattened. -/

/-- One decoded or pending-to-encode mapping record (C `struct map`,
zero default fields as left by `memset`). The C union `fec` is flattened:
`pfx*` fields are the Prefix arm, `pw*`/`groupId`/`ifmtu` the PseudowireID
arm, `twcard*` the Typed Wildcard arm; only the arm selected by `type` is
meaningful. The prefix bytes are kept as a `PREFIX_SIZE pfxLen`-byte list
(the C stores them in a 16-byte zero-padded union). -/
structure MapRec where
  type : Nat := 0
  msgId : Nat := 0
  pfxAf : Nat := 0
  pfxLen : Nat := 0
  pfx : List Nat := []
  pwType : Nat := 0
  groupId : Nat := 0
  pwid : Nat := 0
  ifmtu : Nat := 0
  twcardType : Nat := 0
  twcardAf : Nat := 0
  twcardPwType : Nat := 0
  label : Nat := 0
  requestid : Nat := 0
  pwStatus : Nat := 0
  flags : Nat := 0
  stCode : Nat := 0
  stMsgId : Nat := 0
  stMsgType : Nat := 0
deriving Repr, DecidableEq

/-! Encoding (sender side). -/

/-- `gen_label_tlv`: Generic Label TLV bytes. -/
def gen_label_tlv (label : Nat) : List Nat :=
  be16 TLV_TYPE_GENERICLABEL ++ be16 LABEL_TLV_LEN ++ be32 label

/-- `gen_reqid_tlv`: Label Request ID TLV bytes. -/
def gen_reqid_tlv (reqid : Nat) : List Nat :=
  be16 TLV_TYPE_LABELREQUEST ++ be16 REQID_TLV_LEN ++ be32 reqid

/-- `gen_pw_status_tlv`: Pseudowire Status TLV bytes. -/
def gen_pw_status_tlv (status : Nat) : List Nat :=
  be16 TLV_TYPE_PW_STATUS ++ be16 PW_STATUS_TLV_LEN ++ be32 status

/-- Modelled from the spec: `gen_status_tlv` (defined in the daemon's
packet code, outside this file) emits a Status TLV carrying status-code
(4), message-id (4) and message-type (2). -/
def gen_status_tlv (code msgId msgType : Nat) : List Nat :=
  be16 TLV_TYPE_STATUS ++ be16 STATUS_TLV_LEN ++
    be32 code ++ be32 msgId ++ be16 msgType

/-- Native address family to wire value, as the `switch (af)` in
`gen_fec_tlv` (its `default:` is `fatalx`, unreachable for records this
core builds; the model returns 0 there). -/
def wireAf (af : Nat) : Nat :=
  if af = AF_INET then AF_IPV4 else if af = AF_INET6 then AF_IPV6 else 0

/-- `gen_fec_tlv`: the FEC TLV bytes (header plus one FEC element) for a
record, following the source case by case. The C `default:` arm emits
nothing and reports success. -/
def gen_fec_tlv (m : MapRec) : List Nat :=
  if m.type = MAP_TYPE_WILDCARD then
    be16 TLV_TYPE_FEC ++ be16 1 ++ [m.type]
  else if m.type = MAP_TYPE_PREFIX then
    let len := PREFIX_SIZE m.pfxLen
    be16 TLV_TYPE_FEC ++ be16 (1 + 2 + 1 + len) ++
      [m.type] ++ be16 (wireAf m.pfxAf) ++ [m.pfxLen] ++ padTake m.pfx len
  else if m.type = MAP_TYPE_PWID then
    let pw_len := (if m.flags &&& F_MAP_PW_ID ≠ 0 then FEC_PWID_SIZE else 0) +
      (if m.flags &&& F_MAP_PW_IFMTU ≠ 0 then FEC_SUBTLV_IFMTU_SIZE else 0)
    let pw_type := if m.flags &&& F_MAP_PW_CWORD ≠ 0 then
      m.pwType ||| CONTROL_WORD_FLAG else m.pwType
    be16 TLV_TYPE_FEC ++ be16 (FEC_PWID_ELM_MIN_LEN + pw_len) ++
      [m.type % 256] ++ be16 pw_type ++ [pw_len] ++ be32 m.groupId ++
      (if m.flags &&& F_MAP_PW_ID ≠ 0 then be32 m.pwid else []) ++
      (if m.flags &&& F_MAP_PW_IFMTU ≠ 0 then
        [SUBTLV_IFMTU, FEC_SUBTLV_IFMTU_SIZE] ++ be16 m.ifmtu else [])
  else if m.type = MAP_TYPE_TYPED_WCARD then
    -- both legal inner types add a 2-byte body; others hit fatalx in the C
    be16 TLV_TYPE_FEC ++ be16 (FEC_ELM_TWCARD_MIN_LEN + 2) ++
      [m.type, m.twcardType, 2] ++
      (if m.twcardType = MAP_TYPE_PREFIX then be16 (wireAf m.twcardAf)
       else if m.twcardType = MAP_TYPE_PWID then be16 m.twcardPwType
       else [])
  else []

/-- `len_fec_tlv`: the sender's computed FEC TLV length for one record.
The PWID arm adds `PW_STATUS_TLV_LEN` for a pw-id (same value as
`FEC_PWID_SIZE`) and `PW_STATUS_TLV_SIZE` when the pw-status flag is set
(compensating for the PW Status TLV the sender emits but does not count
separately), exactly as the source does. -/
def len_fec_tlv (m : MapRec) : Nat :=
  TLV_HDR_SIZE +
    (if m.type = MAP_TYPE_WILDCARD then FEC_ELM_WCARD_LEN
     else if m.type = MAP_TYPE_PREFIX then
       FEC_ELM_PREFIX_MIN_LEN + PREFIX_SIZE m.pfxLen
     else if m.type = MAP_TYPE_PWID then
       FEC_PWID_ELM_MIN_LEN +
         (if m.flags &&& F_MAP_PW_ID ≠ 0 then PW_STATUS_TLV_LEN else 0) +
         (if m.flags &&& F_MAP_PW_IFMTU ≠ 0 then FEC_SUBTLV_IFMTU_SIZE else 0) +
         (if m.flags &&& F_MAP_PW_STATUS ≠ 0 then PW_STATUS_TLV_SIZE else 0)
     else if m.type = MAP_TYPE_TYPED_WCARD then
       FEC_ELM_TWCARD_MIN_LEN + 2
     else 0)

/-! Decoding (receiver side). -/

/-- Observable side effects of the receive path, in program order.
`shutdown` is `session_shutdown` (fatal to the session), `notif` is
`send_notification` (recoverable), `deliver` is
`ldpe_imsg_compose_lde` handing a record to the label-distribution
engine, `fatalx` is the process-aborting assertion, and `stuck` marks an
input on which the C loop never terminates (fuel exhaustion). -/
inductive Event where
  | notif (code : StatusCode)
  | shutdown (code : StatusCode)
  | deliver (imsg : Nat) (m : MapRec)
  | fatalx
  | stuck
deriving Repr, DecidableEq

/-- Whether an event hands a record to the label-distribution engine. -/
def Event.isDeliver : Event → Bool
  | .deliver _ _ => true
  | _ => false

/-- The pseudowire sub-TLV walk inside `tlv_decode_fec_elm` (the
`while (pw_len > 0)` loop). `fuel` bounds the iteration count; a run out
of fuel reproduces the C's non-termination on a zero-length unknown
sub-TLV (the loop state then never changes) as an `Event.stuck` error. -/
def subtlvLoop (buf : List Nat) : Nat → Nat → Nat → MapRec →
    Except Event (Nat × MapRec)
  | 0, _, _, _ => .error .stuck
  | fuel + 1, off, pw_len, m =>
    if pw_len = 0 then .ok (off, m)
    else if pw_len < SUBTLV_HDR_SIZE then .error (.shutdown .badTlvLen)
    else
      let st := buf.getD off 0
      let sl := buf.getD (off + 1) 0
      if sl > pw_len then .error (.shutdown .badTlvLen)
      else if st = SUBTLV_IFMTU then
        if sl ≠ FEC_SUBTLV_IFMTU_SIZE then .error (.shutdown .badTlvLen)
        else
          subtlvLoop buf fuel (off + sl) (pw_len - sl)
            { m with ifmtu := be16at buf (off + SUBTLV_HDR_SIZE),
                     flags := m.flags ||| F_MAP_PW_IFMTU }
      else
        -- unknown sub-TLV: skipped using its declared length
        subtlvLoop buf fuel (off + sl) (pw_len - sl) m

/-- The `MAP_TYPE_WILDCARD` arm of `tlv_decode_fec_elm`. -/
def tlv_decode_fec_wcard (len : Nat) (m0 : MapRec) :
    Except Event (Nat × MapRec) :=
  if len = FEC_ELM_WCARD_LEN then .ok (1, m0)
  else .error (.shutdown .badTlvVal)

/-- The `MAP_TYPE_PREFIX` arm of `tlv_decode_fec_elm`. -/
def tlv_decode_fec_pfx (buf : List Nat) (len : Nat) (m0 : MapRec) :
    Except Event (Nat × MapRec) :=
  if len < FEC_ELM_PREFIX_MIN_LEN then .error (.shutdown .badTlvLen)
  else
    let af := be16at buf 1
    if af = AF_IPV4 ∨ af = AF_IPV6 then
      let af' := if af = AF_IPV4 then AF_INET else AF_INET6
      let plen := buf.getD 3 0
      if (af' = AF_INET ∧ plen > IPV4_MAX_BITLEN) ∨
          (af' = AF_INET6 ∧ plen > IPV6_MAX_BITLEN) then
        .error (.shutdown .badTlvVal)
      else if len < 4 + PREFIX_SIZE plen then .error (.shutdown .badTlvLen)
      else
        .ok (4 + PREFIX_SIZE plen,
          { m0 with pfxAf := af', pfxLen := plen,
                    pfx := applyMask plen
                      (padTake (buf.drop 4) (PREFIX_SIZE plen)) })
    else .error (.notif .unsupAddr)

/-- The `MAP_TYPE_PWID` arm of `tlv_decode_fec_elm`. -/
def tlv_decode_fec_pwid (buf : List Nat) (len : Nat) (m0 : MapRec) :
    Except Event (Nat × MapRec) :=
  if len < FEC_PWID_ELM_MIN_LEN then .error (.shutdown .badTlvLen)
  else
    let pwt := be16at buf 1
    let m1 := if pwt &&& CONTROL_WORD_FLAG ≠ 0 then
      { m0 with flags := m0.flags ||| F_MAP_PW_CWORD,
                pwType := pwt &&& 0x7FFF }
      else { m0 with pwType := pwt }
    let pw_len := buf.getD 3 0
    if len ≠ FEC_PWID_ELM_MIN_LEN + pw_len then .error (.shutdown .badTlvLen)
    else
      let m2 := { m1 with groupId := be32at buf 4 }
      if pw_len = 0 then .ok (8, m2)
      else if pw_len < 4 then .error (.shutdown .badTlvLen)
      else
        let m3 := { m2 with pwid := be32at buf 8,
                            flags := m2.flags ||| F_MAP_PW_ID }
        subtlvLoop buf (pw_len - 4 + 1) 12 (pw_len - 4) m3

/-- The `MAP_TYPE_TYPED_WCARD` arm of `tlv_decode_fec_elm`. -/
def tlv_decode_fec_twcard (buf : List Nat) (len : Nat) (m0 : MapRec) :
    Except Event (Nat × MapRec) :=
  if len < FEC_ELM_TWCARD_MIN_LEN then .error (.shutdown .badTlvLen)
  else
    let it := buf.getD 1 0
    let tl := buf.getD 2 0
    if len ≠ FEC_ELM_TWCARD_MIN_LEN + tl then .error (.shutdown .badTlvLen)
    else if it = MAP_TYPE_PREFIX then
      if tl ≠ 2 then .error (.shutdown .badTlvLen)
      else
        let af := be16at buf 3
        if af = AF_IPV4 then
          .ok (5, { m0 with twcardType := it, twcardAf := AF_INET })
        else if af = AF_IPV6 then
          .ok (5, { m0 with twcardType := it, twcardAf := AF_INET6 })
        else .error (.shutdown .badTlvVal)
    else if it = MAP_TYPE_PWID then
      if tl ≠ 2 then .error (.shutdown .badTlvLen)
      else
        .ok (5, { m0 with twcardType := it,
                          twcardPwType := be16at buf 3 &&& 0x7FFF })
    else .error (.notif .unknownFec)

/-- `tlv_decode_fec_elm`: decode one FEC element from `buf` under the
remaining FEC TLV budget `len`, returning the bytes consumed and the
filled record, or the single fatal/recoverable event the C raises before
returning -1. The per-type arms of the C `switch (map->type)` are the
helper functions above. -/
def tlv_decode_fec_elm (buf : List Nat) (len : Nat) (msgId : Nat) :
    Except Event (Nat × MapRec) :=
  let t := buf.getD 0 0
  let m0 : MapRec := { type := t, msgId := msgId }
  if t = MAP_TYPE_WILDCARD then tlv_decode_fec_wcard len m0
  else if t = MAP_TYPE_PREFIX then tlv_decode_fec_pfx buf len m0
  else if t = MAP_TYPE_PWID then tlv_decode_fec_pwid buf len m0
  else if t = MAP_TYPE_TYPED_WCARD then tlv_decode_fec_twcard buf len m0
  else .error (.notif .unknownFec)

/-- The FEC element do-while loop of `recv_labelmessage`: decode elements
from the FEC TLV budget `feclen`, enforcing the per-message-type FEC
restrictions, and collect the records (`mapping_list_add`) in order.
Returns the record list and the total bytes consumed. `fuel` bounds the
iterations; each real iteration consumes at least one byte of `feclen`,
so `feclen + 1` fuel never runs out on reachable inputs. -/
def fecLoop (t msgId : Nat) : Nat → List Nat → Nat → List MapRec → Nat →
    Except Event (List MapRec × Nat)
  | 0, _, _, _, _ => .error .stuck
  | fuel + 1, buf, feclen, acc, used =>
    match tlv_decode_fec_elm buf feclen msgId with
    | .error e => .error e
    | .ok (tlen, m) =>
      if m.type = MAP_TYPE_PWID ∧ m.flags &&& F_MAP_PW_ID = 0 ∧
          t ≠ MSG_TYPE_LABELWITHDRAW ∧ t ≠ MSG_TYPE_LABELRELEASE then
        .error (.notif .missMsg)
      else if m.type = MAP_TYPE_WILDCARD ∧
          (t = MSG_TYPE_LABELMAPPING ∨ t = MSG_TYPE_LABELREQUEST ∨
           t = MSG_TYPE_LABELABORTREQ) then
        .error (.shutdown .unknownFec)
      else if m.type = MAP_TYPE_TYPED_WCARD ∧
          (t = MSG_TYPE_LABELMAPPING ∨ t = MSG_TYPE_LABELABORTREQ) then
        .error (.shutdown .unknownFec)
      else if t ≠ MSG_TYPE_LABELMAPPING ∧ tlen ≠ feclen then
        .error (.shutdown .badTlvVal)
      else
        let acc := acc ++ [m]
        if feclen - tlen > 0 then
          fecLoop t msgId fuel (buf.drop tlen) (feclen - tlen) acc (used + tlen)
        else .ok (acc, used + tlen)

/-- Message-level values the optional-parameter loop accumulates
(the local variables `label`, `reqid`, `pw_status`, `flags` of
`recv_labelmessage`). -/
structure OptState where
  label : Nat := NO_LABEL
  reqid : Nat := 0
  pwStatus : Nat := 0
  flags : Nat := 0
deriving Repr, DecidableEq

/-- Outcome of one arm of the optional-TLV `switch`: a fatal event, or
the updated message-level state and notification list to continue with. -/
inductive OptAct where
  | fail (e : Event)
  | cont (st : OptState) (evs : List Event)
deriving Repr, DecidableEq

/-- The `switch (tlv_type)` of the optional-parameter loop (one TLV),
arm by arm as in the source; `body` points just past the TLV header. -/
def opt_tlv_switch (t tlv_type tlv_len : Nat) (body : List Nat)
    (st : OptState) (evs : List Event) : OptAct :=
  if tlv_type = TLV_TYPE_LABELREQUEST then
    if t = MSG_TYPE_LABELMAPPING ∨ t = MSG_TYPE_LABELREQUEST then
      if tlv_len ≠ REQID_TLV_LEN then .fail (.shutdown .badTlvLen)
      else .cont { st with flags := st.flags ||| F_MAP_REQ_ID,
                           reqid := be32at body 0 } evs
    else .cont st evs
  else if tlv_type = TLV_TYPE_HOPCOUNT ∨ tlv_type = TLV_TYPE_PATHVECTOR then
    .cont st evs
  else if tlv_type = TLV_TYPE_GENERICLABEL then
    if t = MSG_TYPE_LABELMAPPING ∨ t = MSG_TYPE_LABELWITHDRAW ∨
        t = MSG_TYPE_LABELRELEASE then
      if tlv_len ≠ LABEL_TLV_LEN then .fail (.shutdown .badTlvLen)
      else
        let label := be32at body 0
        if label > MPLS_LABEL_MAX ∨
            (label ≤ MPLS_LABEL_RESERVED_MAX ∧
             label ≠ MPLS_LABEL_IPV4_EXPLICIT_NULL ∧
             label ≠ MPLS_LABEL_IPV6_EXPLICIT_NULL ∧
             label ≠ MPLS_LABEL_IMPLICIT_NULL) then
          .fail (.shutdown .badTlvVal)
        else .cont { st with label := label } evs
    else .cont st evs
  else if tlv_type = TLV_TYPE_ATMLABEL ∨ tlv_type = TLV_TYPE_FRLABEL then
    if t = MSG_TYPE_LABELMAPPING ∨ t = MSG_TYPE_LABELWITHDRAW ∨
        t = MSG_TYPE_LABELRELEASE then
      .fail (.shutdown .badTlvVal)
    else .cont st evs
  else if tlv_type = TLV_TYPE_STATUS then
    if tlv_len ≠ STATUS_TLV_LEN then .fail (.shutdown .badTlvLen)
    else .cont st evs
  else if tlv_type = TLV_TYPE_PW_STATUS then
    if t = MSG_TYPE_LABELMAPPING then
      if tlv_len ≠ PW_STATUS_TLV_LEN then .fail (.shutdown .badTlvLen)
      else .cont { st with flags := st.flags ||| F_MAP_PW_STATUS,
                           pwStatus := be32at body 0 } evs
    else .cont st evs
  else
    if tlv_type &&& UNKNOWN_FLAG = 0 then
      .cont st (evs ++ [.notif .unknownTlv])
    else .cont st evs

/-- The optional-parameter while loop of `recv_labelmessage` over the
remaining `len` bytes, for message type `t`, TLV ordinal `cur` (1 for the
first TLV after the FEC TLV) and accumulated state `st` and notification
events `evs`. On a fatal condition the error payload is the full event
list ending with the fatal event. `len` shrinks by at least
`TLV_HDR_SIZE` per iteration, so `len + 1` fuel never runs out. -/
def decodeOptTlvs (t : Nat) : Nat → List Nat → Nat → Nat → OptState →
    List Event → Except (List Event) (OptState × List Event)
  | 0, _, _, _, _, evs => .error (evs ++ [.stuck])
  | fuel + 1, buf, len, cur, st, evs =>
    if len = 0 then .ok (st, evs)
    else if len < TLV_HDR_SIZE then .error (evs ++ [.shutdown .badTlvLen])
    else
      let tlv_type := be16at buf 0
      let tlv_len := be16at buf 2
      if tlv_len + TLV_HDR_SIZE > len then
        .error (evs ++ [.shutdown .badTlvLen])
      else if cur = 1 ∧ t = MSG_TYPE_LABELMAPPING ∧
          tlv_type &&& TLV_TYPE_GENERICLABEL = 0 then
        .error (evs ++ [.notif .missMsg])
      else
        match opt_tlv_switch t tlv_type tlv_len (buf.drop TLV_HDR_SIZE)
            st evs with
        | .fail e => .error (evs ++ [e])
        | .cont st' evs' =>
          decodeOptTlvs t fuel ((buf.drop TLV_HDR_SIZE).drop tlv_len)
            (len - TLV_HDR_SIZE - tlv_len) (cur + 1) st' evs'

/-- Per-neighbor configuration the receive path reads. -/
structure Nbr where
  v4Enabled : Bool := true
  v6Enabled : Bool := true
deriving Repr, DecidableEq

/-- Outcome of `recv_labelmessage`: `ok` mirrors the C return value
(true for 0, false for -1) and `events` the side effects in order. -/
structure RecvOut where
  ok : Bool
  events : List Event
deriving Repr, DecidableEq

/-- Message type to downstream imsg kind (the `switch (type)` before
`ldpe_imsg_compose_lde`; `IMSG_NONE` on the default arm). -/
def imsgOf (t : Nat) : Nat :=
  if t = MSG_TYPE_LABELMAPPING then IMSG_LABEL_MAPPING
  else if t = MSG_TYPE_LABELREQUEST then IMSG_LABEL_REQUEST
  else if t = MSG_TYPE_LABELWITHDRAW then IMSG_LABEL_WITHDRAW
  else if t = MSG_TYPE_LABELRELEASE then IMSG_LABEL_RELEASE
  else if t = MSG_TYPE_LABELABORTREQ then IMSG_LABEL_ABORT
  else IMSG_NONE

/-- The record assembly the dispatch loop performs on one decoded record
before hand-off: OR in the message-level flags, copy the pseudowire
status into PWID records, and set the resolved label and (when flagged)
the request id. -/
def dispatch_assemble (m : MapRec) (st : OptState) : MapRec :=
  let m := { m with flags := m.flags ||| st.flags }
  let m := if m.type = MAP_TYPE_PWID ∧ m.flags &&& F_MAP_PW_STATUS ≠ 0 then
    { m with pwStatus := st.pwStatus } else m
  let m := { m with label := st.label }
  if m.flags &&& F_MAP_REQ_ID ≠ 0 then { m with requestid := st.reqid } else m

/-- The dispatch loop of `recv_labelmessage` (notify lde about the
received message): per-record post-validation, then assembly
(`dispatch_assemble`) and hand-off. A record whose address family is
administratively disabled is silently skipped. -/
def dispatchLoop (nbr : Nbr) (t : Nat) (st : OptState) :
    List MapRec → List Event → RecvOut
  | [], acc => ⟨true, acc⟩
  | m0 :: rest, acc =>
    let m := { m0 with flags := m0.flags ||| st.flags }
    let deliver :=
      dispatchLoop nbr t st rest
        (acc ++ [.deliver (imsgOf t) (dispatch_assemble m0 st)])
    if m.type = MAP_TYPE_PREFIX then
      if m.pfxAf = AF_INET then
        if st.label = MPLS_LABEL_IPV6_EXPLICIT_NULL then
          ⟨false, acc ++ [.shutdown .badTlvVal]⟩
        else if ¬nbr.v4Enabled then dispatchLoop nbr t st rest acc
        else deliver
      else if m.pfxAf = AF_INET6 then
        if st.label = MPLS_LABEL_IPV4_EXPLICIT_NULL then
          ⟨false, acc ++ [.shutdown .badTlvVal]⟩
        else if ¬nbr.v6Enabled then dispatchLoop nbr t st rest acc
        else deliver
      else ⟨false, acc ++ [.fatalx]⟩
    else if m.type = MAP_TYPE_PWID then
      if st.label ≤ MPLS_LABEL_RESERVED_MAX then
        ⟨false, acc ++ [.shutdown .badTlvVal]⟩
      else deliver
    else deliver

/-- `recv_labelmessage`: decode one received Label message. `buf` holds
the message from its header on (the daemon guarantees at least
`LDP_MSG_SIZE` bytes). -/
def recv_labelmessage (nbr : Nbr) (t : Nat) (buf : List Nat) : RecvOut :=
  let msgId := be32at buf 4
  let buf1 := buf.drop LDP_MSG_SIZE
  let len := buf.length - LDP_MSG_SIZE
  if len < TLV_HDR_SIZE then ⟨false, [.shutdown .badTlvLen]⟩
  else
    let ftType := be16at buf1 0
    let feclen := be16at buf1 2
    if ftType ≠ TLV_TYPE_FEC then ⟨false, [.notif .missMsg]⟩
    else if feclen > len - TLV_HDR_SIZE then ⟨false, [.shutdown .badTlvLen]⟩
    else
      let buf2 := buf1.drop TLV_HDR_SIZE
      let len2 := len - TLV_HDR_SIZE
      match fecLoop t msgId (feclen + 1) buf2 feclen [] 0 with
      | .error e => ⟨false, [e]⟩
      | .ok (maps, consumed) =>
        let optBuf := buf2.drop consumed
        let optLen := len2 - consumed
        match decodeOptTlvs t (optLen + 1) optBuf optLen 1 {} [] with
        | .error evs => ⟨false, evs⟩
        | .ok (st, evs) => dispatchLoop nbr t st maps evs

/-! Encoding / batching (sender side). -/

/-- The per-record message size `send_labelmessage` computes:
message header, FEC TLV (as `len_fec_tlv` counts it), Generic Label TLV
when a real label is set, Request-ID TLV and Status TLV when flagged. -/
def msg_size (m : MapRec) : Nat :=
  LDP_MSG_SIZE + len_fec_tlv m +
    (if m.label ≠ NO_LABEL then LABEL_TLV_SIZE else 0) +
    (if m.flags &&& F_MAP_REQ_ID ≠ 0 then REQID_TLV_SIZE else 0) +
    (if m.flags &&& F_MAP_STATUS ≠ 0 then STATUS_SIZE else 0)

/-- Outcome of `send_labelmessage`: the PDUs handed to the transport
(each as its declared size — the value written into the LDP header —
with the records packed into it, in order), the number of per-type sent
counter increments, and whether the PDU-sent event was raised to the
session state machine. -/
structure SendOut where
  pdus : List (Nat × List MapRec)
  sent : Nat
  pduSentEvt : Bool
deriving Repr, DecidableEq

/-- The batching loop of `send_labelmessage` over the nonempty queue.
`first` marks that a fresh PDU must be opened; `size` and `cur` are the
running size and content of the open PDU; `pdus` the PDUs already flushed
via `enqueue_pdu`; `sent` the counter increments so far. Each fuel unit
is one iteration of the C `while`; `none` means the fuel ran out, which
on the inputs where a record can never fit reproduces the C loop running
forever. The model omits the `ibuf` allocation-failure paths (`fatal` /
encode `err`), which cannot occur in a pure byte model. -/
def sendLoop (maxPdu : Nat) : Nat → List MapRec → Bool → Nat →
    List MapRec → List (Nat × List MapRec) → Nat → Option SendOut
  | _, [], _, size, cur, pdus, sent =>
    -- queue exhausted: flush the final PDU, raise the PDU-sent event
    some ⟨pdus ++ [(size, cur)], sent, true⟩
  | 0, _ :: _, _, _, _, _, _ => none
  | fuel + 1, me :: rest, first, size, cur, pdus, sent =>
    let size := if first then LDP_HDR_SIZE else size
    let cur := if first then [] else cur
    let ms := msg_size me
    if size + ms > maxPdu then
      -- maximum pdu length exceeded: flush and start a new pdu
      sendLoop maxPdu fuel (me :: rest) true 0 [] (pdus ++ [(size, cur)]) sent
    else
      sendLoop maxPdu fuel rest false (size + ms) (cur ++ [me]) pdus (sent + 1)

/-- `send_labelmessage`: batch the queued records for one neighbor into
PDUs of at most `maxPdu` declared bytes. An empty queue is a no-op. -/
def send_labelmessage (fuel maxPdu : Nat) (queue : List MapRec) :
    Option SendOut :=
  if queue = [] then some ⟨[], 0, false⟩
  else sendLoop maxPdu fuel queue true 0 [] [] 0

/-! Definitions for the codec round-trip. -/

/-- The optional TLV bytes `send_labelmessage` appends after the FEC TLV
for one record, in its fixed order: Generic Label (when a real label is
set), Request-ID, PW Status and Status TLVs (when flagged). -/
def gen_opt_tlvs (m : MapRec) : List Nat :=
  (if m.label ≠ NO_LABEL then gen_label_tlv m.label else []) ++
  (if m.flags &&& F_MAP_REQ_ID ≠ 0 then gen_reqid_tlv m.requestid else []) ++
  (if m.flags &&& F_MAP_PW_STATUS ≠ 0 then gen_pw_status_tlv m.pwStatus else []) ++
  (if m.flags &&& F_MAP_STATUS ≠ 0 then
    gen_status_tlv m.stCode m.stMsgId m.stMsgType else [])

/-- Encode one record with the FEC and optional TLV encoders, then decode
the bytes with the FEC-element decoder and the optional-TLV loop (as a
Label Mapping message carries them) and assemble the resulting record;
`none` when any decode step fails. -/
def codec_roundtrip (m : MapRec) : Option MapRec :=
  let fb := gen_fec_tlv m
  match tlv_decode_fec_elm (fb.drop TLV_HDR_SIZE) (fb.length - TLV_HDR_SIZE)
      m.msgId with
  | .error _ => none
  | .ok (_, m1) =>
    let ob := gen_opt_tlvs m
    match decodeOptTlvs MSG_TYPE_LABELMAPPING (ob.length + 1) ob ob.length
        1 {} [] with
    | .error _ => none
    | .ok (st, _) => some (dispatch_assemble m1 st)

/-- Equality of the semantically significant fields of two records:
label, FEC variant and the payload of that variant, and flags (the
optional payload fields are compared when their presence flag is set). -/
def SigEq (a b : MapRec) : Prop :=
  a.type = b.type ∧ a.label = b.label ∧ a.flags = b.flags ∧
  (a.type = MAP_TYPE_PREFIX →
    a.pfxAf = b.pfxAf ∧ a.pfxLen = b.pfxLen ∧ a.pfx = b.pfx) ∧
  (a.type = MAP_TYPE_PWID →
    a.pwType = b.pwType ∧ a.groupId = b.groupId ∧
    (a.flags &&& F_MAP_PW_ID ≠ 0 → a.pwid = b.pwid) ∧
    (a.flags &&& F_MAP_PW_IFMTU ≠ 0 → a.ifmtu = b.ifmtu)) ∧
  (a.type = MAP_TYPE_TYPED_WCARD →
    a.twcardType = b.twcardType ∧
    (a.twcardType = MAP_TYPE_PREFIX → a.twcardAf = b.twcardAf) ∧
    (a.twcardType = MAP_TYPE_PWID → a.twcardPwType = b.twcardPwType))

instance (a b : MapRec) : Decidable (SigEq a b) := by
  unfold SigEq; infer_instance

/-- A label value the receive-side Generic Label TLV validation accepts:
within the legal MPLS range and, inside the reserved range, one of the
three permitted reserved labels. -/
def LabelValid (l : Nat) : Prop :=
  l ≤ MPLS_LABEL_MAX ∧
    (MPLS_LABEL_RESERVED_MAX < l ∨ l = MPLS_LABEL_IPV4_EXPLICIT_NULL ∨
     l = MPLS_LABEL_IPV6_EXPLICIT_NULL ∨ l = MPLS_LABEL_IMPLICIT_NULL)

/-- Well-formed mapping record: fields fit their C integer widths, the
FEC payload matches the FEC variant (with unused-variant flag bits
clear), the prefix bytes are already masked to the prefix length, and
the label is absent or a value the decoder accepts. -/
def WfMap (m : MapRec) : Prop :=
  m.requestid < 2 ^ 32 ∧ m.pwStatus < 2 ^ 32 ∧ m.flags < 64 ∧
  (m.label = NO_LABEL ∨ LabelValid m.label) ∧
  ((m.type = MAP_TYPE_WILDCARD ∧
      m.flags &&& (F_MAP_PW_CWORD ||| F_MAP_PW_ID ||| F_MAP_PW_IFMTU) = 0) ∨
   (m.type = MAP_TYPE_PREFIX ∧
      m.flags &&& (F_MAP_PW_CWORD ||| F_MAP_PW_ID ||| F_MAP_PW_IFMTU) = 0 ∧
      ((m.pfxAf = AF_INET ∧ m.pfxLen ≤ IPV4_MAX_BITLEN) ∨
       (m.pfxAf = AF_INET6 ∧ m.pfxLen ≤ IPV6_MAX_BITLEN)) ∧
      m.pfx.length = PREFIX_SIZE m.pfxLen ∧
      applyMask m.pfxLen m.pfx = m.pfx) ∨
   (m.type = MAP_TYPE_PWID ∧
      m.pwType < 2 ^ 15 ∧ m.groupId < 2 ^ 32 ∧ m.pwid < 2 ^ 32 ∧
      m.ifmtu < 2 ^ 16) ∨
   (m.type = MAP_TYPE_TYPED_WCARD ∧
      m.flags &&& (F_MAP_PW_CWORD ||| F_MAP_PW_ID ||| F_MAP_PW_IFMTU) = 0 ∧
      ((m.twcardType = MAP_TYPE_PREFIX ∧
         (m.twcardAf = AF_INET ∨ m.twcardAf = AF_INET6)) ∨
       (m.twcardType = MAP_TYPE_PWID ∧ m.twcardPwType < 2 ^ 15))))

/-! Concrete inputs used by witnesses and counterexamples. -/

/-- Message header bytes: type, length field (unread by the decoder
model), message id. -/
def msgHdr (t id : Nat) : List Nat := be16 t ++ be16 0 ++ be32 id

/-- A FEC TLV holding two IPv4 /24 Prefix elements (10.0.0.0/24 and
10.0.1.0/24). -/
def fecTlvTwoPfx : List Nat :=
  be16 TLV_TYPE_FEC ++ be16 14 ++
    [2, 0, 1, 24, 10, 0, 0] ++ [2, 0, 1, 24, 10, 0, 1]

/-- A Label message (sans type) whose FEC TLV holds two Prefix elements
and no optional TLVs. -/
def msgTwoPfx : List Nat := msgHdr 0 9 ++ fecTlvTwoPfx

/-- A Label Mapping message whose first optional TLV is a Status TLV
(type 0x0300), not the Generic Label TLV. -/
def msgStatusFirst : List Nat :=
  msgHdr MSG_TYPE_LABELMAPPING 11 ++
    (be16 TLV_TYPE_FEC ++ be16 7 ++ [2, 0, 1, 24, 10, 0, 0]) ++
    gen_status_tlv 0 1 MSG_TYPE_LABELMAPPING

/-- A Label Mapping message whose FEC TLV holds a Prefix element with
address family 3 (neither IPv4 nor IPv6) followed by a well-formed IPv4
Prefix element. -/
def msgBadAf : List Nat :=
  msgHdr MSG_TYPE_LABELMAPPING 12 ++
    (be16 TLV_TYPE_FEC ++ be16 14 ++
      [2, 0, 3, 24, 10, 0, 0] ++ [2, 0, 1, 24, 10, 0, 1])

/-- A Label Mapping message carrying an IPv4 Prefix element, then an
IPv6 Prefix element, with the IPv4 explicit-null label: the first record
is dispatched before the second hits the dispatch-time fatal check. -/
def msgMixedAfNull : List Nat :=
  msgHdr MSG_TYPE_LABELMAPPING 13 ++
    (be16 TLV_TYPE_FEC ++ be16 12 ++
      [2, 0, 1, 24, 10, 0, 0] ++ [2, 0, 2, 8, 0xFE]) ++
    gen_label_tlv MPLS_LABEL_IPV4_EXPLICIT_NULL

/-- A record with the has-status flag set (the Status TLV combination of
the round-trip claim). -/
def mapWithStatus : MapRec :=
  { type := MAP_TYPE_WILDCARD, label := 100, flags := F_MAP_STATUS,
    stCode := 1, stMsgId := 2, stMsgType := MSG_TYPE_LABELMAPPING }

/-- A wildcard record with a label: its encoded message size (21 bytes)
plus the LDP header (10) exceeds a 20-byte max PDU length. -/
def oversizedMap : MapRec := { type := MAP_TYPE_WILDCARD, label := 100 }

/-- A well-formed PWID record exercising every optional field the
round-trip preserves: control word, pw-id, interface MTU, pw-status and
request id present (flags 0x3D), with a label. -/
def wfPwidMap : MapRec :=
  { type := MAP_TYPE_PWID, msgId := 7, pwType := 5, groupId := 9,
    pwid := 42, ifmtu := 1500, label := 100, requestid := 77,
    pwStatus := 3, flags := 61 }

/-- A well-formed PWID record with no label whose pw-status TLV is
preceded by a Request-ID TLV (flags 0x29: pw-id, request id,
pw-status), so the first-TLV check passes without a label TLV. -/
def pwsNoLabelMap : MapRec :=
  { type := MAP_TYPE_PWID, msgId := 8, pwType := 5, groupId := 9,
    pwid := 42, label := NO_LABEL, requestid := 77, pwStatus := 3,
    flags := 41 }

/-! Batching loop lemmas. -/

/-- Main invariant proof for the batching loop: when every queued record
fits into an empty PDU, the loop drains the queue, every flushed PDU
(declared size) stays within `maxPdu`, the packed records are exactly
the queue in order, and the counter and completion event fire. -/
lemma sendLoop_spec (fuel : Nat) :
    ∀ (queue : List MapRec) (first : Bool) (size : Nat) (cur : List MapRec)
      (pdus : List (Nat × List MapRec)) (sent maxPdu : Nat),
    (∀ m ∈ queue, LDP_HDR_SIZE + msg_size m ≤ maxPdu) →
    (first = false → size ≤ maxPdu) →
    (first = true → queue ≠ []) →
    (∀ p ∈ pdus, p.1 ≤ maxPdu) →
    2 * queue.length ≤ fuel + (if first then 1 else 0) →
    ∃ out, sendLoop maxPdu fuel queue first size cur pdus sent = some out ∧
      (∀ p ∈ out.pdus, p.1 ≤ maxPdu) ∧
      (out.pdus.map Prod.snd).flatten =
        (pdus.map Prod.snd).flatten ++ (if first then [] else cur) ++ queue ∧
      out.sent = sent + queue.length ∧ out.pduSentEvt = true := by
  induction fuel with
  | zero =>
    intro queue first size cur pdus sent maxPdu hq h2 h3 h4 hf
    cases queue with
    | nil =>
      cases first with
      | true => exact absurd rfl (fun h => (h3 h) rfl)
      | false =>
        refine ⟨⟨pdus ++ [(size, cur)], sent, true⟩, rfl, ?_, ?_, by simp, rfl⟩
        · intro p hp
          rcases List.mem_append.1 hp with h | h
          · exact h4 p h
          · simp at h; subst h; exact h2 rfl
        · simp
    | cons me rest => cases first <;> (simp at hf; try omega)
  | succ fuel ih =>
    intro queue first size cur pdus sent maxPdu hq h2 h3 h4 hf
    cases queue with
    | nil =>
      cases first with
      | true => exact absurd rfl (fun h => (h3 h) rfl)
      | false =>
        refine ⟨⟨pdus ++ [(size, cur)], sent, true⟩, rfl, ?_, ?_, by simp, rfl⟩
        · intro p hp
          rcases List.mem_append.1 hp with h | h
          · exact h4 p h
          · simp at h; subst h; exact h2 rfl
        · simp
    | cons me rest =>
      have hme := hq me (List.mem_cons_self me rest)
      cases first with
      | true =>
        have hfit : ¬ (LDP_HDR_SIZE + msg_size me > maxPdu) := by omega
        simp only [sendLoop, if_true]
        rw [if_neg hfit]
        obtain ⟨out, hrun, hsz, hjoin, hsent, hevt⟩ :=
          ih rest false (LDP_HDR_SIZE + msg_size me) ([] ++ [me]) pdus
            (sent + 1) maxPdu
            (fun m hm => hq m (List.mem_cons_of_mem me hm))
            (fun _ => by omega)
            (fun h => by cases h)
            h4
            (by simp at hf ⊢; omega)
        refine ⟨out, hrun, hsz, ?_, by rw [hsent]; simp; omega, hevt⟩
        rw [hjoin]; simp
      | false =>
        by_cases hfit : size + msg_size me > maxPdu
        · -- flush the open PDU and retry with a fresh one
          simp only [sendLoop, Bool.false_eq_true, if_false]
          rw [if_pos hfit]
          obtain ⟨out, hrun, hsz, hjoin, hsent, hevt⟩ :=
            ih (me :: rest) true 0 [] (pdus ++ [(size, cur)]) sent maxPdu hq
              (fun h => by cases h)
              (fun _ => List.cons_ne_nil me rest)
              (by intro p hp
                  rcases List.mem_append.1 hp with h | h
                  · exact h4 p h
                  · simp at h; subst h; exact h2 rfl)
              (by simp at hf ⊢; omega)
          refine ⟨out, hrun, hsz, ?_, hsent, hevt⟩
          rw [hjoin]; simp
        · simp only [sendLoop, Bool.false_eq_true, if_false]
          rw [if_neg hfit]
          obtain ⟨out, hrun, hsz, hjoin, hsent, hevt⟩ :=
            ih rest false (size + msg_size me) (cur ++ [me]) pdus
              (sent + 1) maxPdu
              (fun m hm => hq m (List.mem_cons_of_mem me hm))
              (fun _ => by omega)
              (fun h => by cases h)
              h4
              (by simp at hf ⊢; omega)
          refine ⟨out, hrun, hsz, ?_, by rw [hsent]; simp; omega, hevt⟩
          rw [hjoin]; simp

/-- The oversized-record spin: a record whose message size plus the LDP
header exceeds `maxPdu` is never consumed — the loop flushes a fresh
header-only PDU and retries forever, so no fuel suffices. -/
lemma sendLoop_oversized (fuel : Nat) :
    ∀ pdus sent, sendLoop 20 fuel [oversizedMap] true 0 [] pdus sent = none := by
  induction fuel with
  | zero => intro pdus sent; rfl
  | succ f ih =>
    intro pdus sent
    calc sendLoop 20 (f + 1) [oversizedMap] true 0 [] pdus sent
        = sendLoop 20 f [oversizedMap] true 0 []
            (pdus ++ [(LDP_HDR_SIZE, [])]) sent := rfl
      _ = none := ih _ _

/-! Claim theorems: batching. -/

/-- C8: calling `send_labelmessage` with an empty mapping queue is a
no-op — no PDU is handed to the transport, the per-message-type sent
counter does not change, and no PDU-sent event is raised. -/
theorem C8_empty_queue_noop (fuel maxPdu : Nat) :
    send_labelmessage fuel maxPdu [] = some ⟨[], 0, false⟩ := by
  simp [send_labelmessage]

/-- C2 (corrected): provided every queued record's encoded message size
plus the LDP header size fits within `maxPdu`, the batcher terminates
(fuel `2 * queue.length` suffices), never emits a PDU whose declared
size exceeds `maxPdu`, and the records across all emitted PDUs are
exactly the input queue in the original order. (Without the
precondition the loop never terminates — see the counterexample.) -/
theorem C2_batching_invariant (queue : List MapRec) (maxPdu : Nat)
    (hfit : ∀ m ∈ queue, LDP_HDR_SIZE + msg_size m ≤ maxPdu) :
    ∃ out, send_labelmessage (2 * queue.length) maxPdu queue = some out ∧
      (∀ p ∈ out.pdus, p.1 ≤ maxPdu) ∧
      (out.pdus.map Prod.snd).flatten = queue := by
  cases queue with
  | nil => exact ⟨⟨[], 0, false⟩, by simp [send_labelmessage], by simp, by simp⟩
  | cons me rest =>
    obtain ⟨out, hrun, hsz, hjoin, -, -⟩ :=
      sendLoop_spec (2 * (me :: rest).length) (me :: rest) true 0 [] [] 0
        maxPdu hfit (fun h => by cases h) (fun _ => List.cons_ne_nil me rest)
        (by simp) (by simp)
    refine ⟨out, ?_, hsz, by simpa using hjoin⟩
    simpa [send_labelmessage] using hrun

/-- C2 counterexample: for the queue holding one record whose message
(21 bytes) plus the LDP header (10) exceeds a 20-byte maximum PDU
length, the batching loop never finishes, so no set of emitted PDUs
containing the queued records exists — the claim's unconditional
quantification over `max_pdu_len` fails. -/
theorem C2_batching_cex :
    ¬ ∃ fuel out, send_labelmessage fuel 20 [oversizedMap] = some out := by
  rintro ⟨fuel, out, h⟩
  rw [show send_labelmessage fuel 20 [oversizedMap] =
      sendLoop 20 fuel [oversizedMap] true 0 [] [] 0 from by
        simp [send_labelmessage], sendLoop_oversized] at h
  exact Option.noConfusion h

/-- C10: the batching loop terminates and fully drains the queue when
every queued record's message size plus the LDP header size is at most
`max_pdu_len`; and for a queue holding a record violating that bound
(21 + 10 > 20) the loop never consumes the record — no amount of fuel
makes it terminate. -/
theorem C10_termination :
    (∀ (queue : List MapRec) (maxPdu : Nat),
      (∀ m ∈ queue, LDP_HDR_SIZE + msg_size m ≤ maxPdu) →
      ∃ out, send_labelmessage (2 * queue.length) maxPdu queue = some out ∧
        (out.pdus.map Prod.snd).flatten = queue) ∧
    (∀ fuel, send_labelmessage fuel 20 [oversizedMap] = none) := by
  constructor
  · intro queue maxPdu hfit
    cases queue with
    | nil => exact ⟨⟨[], 0, false⟩, by simp [send_labelmessage], by simp⟩
    | cons me rest =>
      obtain ⟨out, hrun, -, hjoin, -, -⟩ :=
        sendLoop_spec (2 * (me :: rest).length) (me :: rest) true 0 [] [] 0
          maxPdu hfit (fun h => by cases h)
          (fun _ => List.cons_ne_nil me rest) (by simp) (by simp)
      exact ⟨out, by simpa [send_labelmessage] using hrun, by simpa using hjoin⟩
  · intro fuel
    rw [show send_labelmessage fuel 20 [oversizedMap] =
        sendLoop 20 fuel [oversizedMap] true 0 [] [] 0 from by
          simp [send_labelmessage]]
    exact sendLoop_oversized fuel [] 0

/-- C2 witness: three one-record-per-PDU-sized records against a 40-byte
limit drain into PDUs within the limit carrying the records in order. -/
theorem C2_batching_witness :
    ∃ out, send_labelmessage 6 40 [oversizedMap, oversizedMap, oversizedMap] =
        some out ∧
      (∀ p ∈ out.pdus, p.1 ≤ 40) ∧
      (out.pdus.map Prod.snd).flatten =
        [oversizedMap, oversizedMap, oversizedMap] := by
  have h := C2_batching_invariant [oversizedMap, oversizedMap, oversizedMap]
    40 (by decide)
  simpa using h

/-! Claim theorems: concrete decode scenarios. -/

/-- C3: a FEC TLV holding two Prefix elements is decoded fatally
(`BadTlvVal`, session shutdown, nothing dispatched) under each of the
four non-Mapping message types — the first element's consumed length
(7) differs from the TLV's declared length (14) — while the same FEC
TLV inside a Label Mapping message decodes successfully into two
independent mapping records. -/
theorem C3_fec_cardinality :
    recv_labelmessage {} MSG_TYPE_LABELREQUEST msgTwoPfx =
      ⟨false, [.shutdown .badTlvVal]⟩ ∧
    recv_labelmessage {} MSG_TYPE_LABELWITHDRAW msgTwoPfx =
      ⟨false, [.shutdown .badTlvVal]⟩ ∧
    recv_labelmessage {} MSG_TYPE_LABELRELEASE msgTwoPfx =
      ⟨false, [.shutdown .badTlvVal]⟩ ∧
    recv_labelmessage {} MSG_TYPE_LABELABORTREQ msgTwoPfx =
      ⟨false, [.shutdown .badTlvVal]⟩ ∧
    recv_labelmessage {} MSG_TYPE_LABELMAPPING msgTwoPfx =
      ⟨true,
        [.deliver IMSG_LABEL_MAPPING
          { type := MAP_TYPE_PREFIX, msgId := 9, pfxAf := AF_INET,
            pfxLen := 24, pfx := [10, 0, 0], label := NO_LABEL },
         .deliver IMSG_LABEL_MAPPING
          { type := MAP_TYPE_PREFIX, msgId := 9, pfxAf := AF_INET,
            pfxLen := 24, pfx := [10, 0, 1], label := NO_LABEL }]⟩ := by
  refine ⟨?_, ?_, ?_, ?_, ?_⟩ <;> rfl

/-- C5 counterexample: a Label Mapping message whose first optional TLV
is a Status TLV — not the Generic Label TLV — decodes successfully with
no `MissingMessage` Notification: the code's first-TLV rule only tests
the 0x0200 bit of the TLV type, which the Status TLV (0x0300) carries. -/
theorem C5_first_tlv_cex :
    recv_labelmessage {} MSG_TYPE_LABELMAPPING msgStatusFirst =
      ⟨true,
        [.deliver IMSG_LABEL_MAPPING
          { type := MAP_TYPE_PREFIX, msgId := 11, pfxAf := AF_INET,
            pfxLen := 24, pfx := [10, 0, 0], label := NO_LABEL }]⟩ := by
  rfl

/-- C6 counterexample: a Prefix FEC element with address family 3 sends
the `UnsupportedAddressFamily` Notification and then aborts the whole
message decode — the well-formed second FEC element is never reached and
no record is dispatched, so the decode does not "otherwise complete
normally". -/
theorem C6_unsup_af_cex :
    recv_labelmessage {} MSG_TYPE_LABELMAPPING msgBadAf =
      ⟨false, [.notif .unsupAddr]⟩ := by
  rfl

/-- C7 counterexample: in a Label Mapping message whose first (IPv4)
Prefix record passes dispatch but whose second (IPv6) record hits the
dispatch-time explicit-null fatal check, the first record has already
been handed to the label-distribution engine when the session is shut
down — the decode result is not discarded in its entirety. -/
theorem C7_dispatch_cex :
    recv_labelmessage {} MSG_TYPE_LABELMAPPING msgMixedAfNull =
      ⟨false,
        [.deliver IMSG_LABEL_MAPPING
          { type := MAP_TYPE_PREFIX, msgId := 13, pfxAf := AF_INET,
            pfxLen := 24, pfx := [10, 0, 0],
            label := MPLS_LABEL_IPV4_EXPLICIT_NULL },
         .shutdown .badTlvVal]⟩ := by
  rfl

/-- C1 counterexample: a record carrying the has-status flag round-trips
to a record with empty flags — the decoder validates a Status TLV's
length but otherwise ignores it, so the flag (a semantically significant
field) is lost. -/
theorem C1_roundtrip_cex :
    codec_roundtrip mapWithStatus =
      some { type := MAP_TYPE_WILDCARD, label := 100 } ∧
    ¬ SigEq { type := MAP_TYPE_WILDCARD, label := 100 } mapWithStatus := by
  exact ⟨rfl, by decide⟩

/-! Byte-reader round-trip lemmas. -/

lemma be16at_cons (a b : Nat) (l : List Nat) :
    be16at (a :: b :: l) 0 = 256 * a + b := by
  simp [be16at, List.getD]

lemma be16at_be16 (v : Nat) (hv : v < 65536) (r : List Nat) :
    be16at (be16 v ++ r) 0 = v := by
  simp [be16, be16at, List.getD]; omega

lemma be32at_be32 (v : Nat) (hv : v < 4294967296) (r : List Nat) :
    be32at (be32 v ++ r) 0 = v := by
  simp [be32, be32at, List.getD]; omega

/-! Claim theorems: optional-TLV validation. -/

/-- C4: whenever the optional-TLV loop decodes a Generic Label TLV — for
the three message types that decode it — a label above the maximum legal
MPLS label, or inside the reserved range but not one of the three
permitted reserved labels, fails fatally with a `BadTlvVal` session
shutdown. -/
theorem C4_label_bounds (t v len fuel cur : Nat) (rest : List Nat)
    (st : OptState) (evs : List Event)
    (ht : t = MSG_TYPE_LABELMAPPING ∨ t = MSG_TYPE_LABELWITHDRAW ∨
      t = MSG_TYPE_LABELRELEASE)
    (hv : v < 4294967296)
    (hbad : MPLS_LABEL_MAX < v ∨
      (v ≤ MPLS_LABEL_RESERVED_MAX ∧ v ≠ MPLS_LABEL_IPV4_EXPLICIT_NULL ∧
       v ≠ MPLS_LABEL_IPV6_EXPLICIT_NULL ∧ v ≠ MPLS_LABEL_IMPLICIT_NULL))
    (hlen : LABEL_TLV_SIZE ≤ len) :
    decodeOptTlvs t (fuel + 1) (gen_label_tlv v ++ rest) len cur st evs =
      .error (evs ++ [.shutdown .badTlvVal]) := by
  have hbuf : gen_label_tlv v ++ rest =
      2 :: 0 :: 0 :: 4 :: (be32 v ++ rest) := rfl
  rw [hbuf]
  simp only [decodeOptTlvs]
  rw [if_neg (by simp [LABEL_TLV_SIZE] at hlen; omega),
      if_neg (by simp [TLV_HDR_SIZE, LABEL_TLV_SIZE] at hlen ⊢; omega)]
  have hty : be16at (2 :: 0 :: 0 :: 4 :: (be32 v ++ rest)) 0 = 512 := by
    simp [be16at, List.getD]
  have htl : be16at (2 :: 0 :: 0 :: 4 :: (be32 v ++ rest)) 2 = 4 := by
    simp [be16at, List.getD]
  rw [hty, htl]
  rw [if_neg (by simp [TLV_HDR_SIZE, LABEL_TLV_SIZE] at hlen ⊢; omega)]
  rw [if_neg (by
    rintro ⟨-, -, hz⟩
    simp [TLV_TYPE_GENERICLABEL] at hz)]
  have hdrop : List.drop TLV_HDR_SIZE (2 :: 0 :: 0 :: 4 :: (be32 v ++ rest)) =
      be32 v ++ rest := rfl
  rw [hdrop]
  have hstep : opt_tlv_switch t 512 4 (be32 v ++ rest) st evs =
      .fail (.shutdown .badTlvVal) := by
    simp only [opt_tlv_switch]
    rw [if_neg (by decide), if_neg (by decide), if_pos (by decide)]
    rw [if_pos (by
      simpa [MSG_TYPE_LABELMAPPING, MSG_TYPE_LABELWITHDRAW,
        MSG_TYPE_LABELRELEASE] using ht)]
    rw [if_neg (by decide)]
    rw [be32at_be32 v hv rest]
    rw [if_pos (by
      rcases hbad with h | h
      · exact Or.inl (by simpa [MPLS_LABEL_MAX] using h)
      · exact Or.inr (by simpa [MPLS_LABEL_RESERVED_MAX,
          MPLS_LABEL_IPV4_EXPLICIT_NULL, MPLS_LABEL_IPV6_EXPLICIT_NULL,
          MPLS_LABEL_IMPLICIT_NULL] using h))]
  rw [hstep]

/-- C4 witness: reserved label 1 in a Generic Label TLV of a Label
Mapping message is rejected fatally. -/
theorem C4_label_bounds_witness :
    decodeOptTlvs MSG_TYPE_LABELMAPPING 1 (gen_label_tlv 1 ++ []) 8 1 {} [] =
      .error [.shutdown .badTlvVal] := by
  have h := C4_label_bounds MSG_TYPE_LABELMAPPING 1 8 0 1 [] {} []
    (Or.inl rfl) (by norm_num) (Or.inr (by norm_num [MPLS_LABEL_RESERVED_MAX,
      MPLS_LABEL_IPV4_EXPLICIT_NULL, MPLS_LABEL_IPV6_EXPLICIT_NULL,
      MPLS_LABEL_IMPLICIT_NULL])) (by norm_num [LABEL_TLV_SIZE])
  simpa using h

/-- C5 (corrected): what the first-optional-TLV rule of a Label Mapping
message actually enforces is the 0x0200 bit of the TLV type, not
identity with the Generic Label TLV: a first TLV whose type has that bit
clear draws the `MissingMessage` Notification and the decode fails,
while the Generic Label TLV itself (which carries the bit) passes and is
decoded. (Types other than the Generic Label TLV that carry the bit,
such as the Status TLV 0x0300, also pass — see the counterexample.) -/
theorem C5_first_tlv_rule :
    (∀ (c1 c2 c3 c4 len fuel : Nat) (rest : List Nat) (st : OptState)
       (evs : List Event),
      (256 * c1 + c2) &&& TLV_TYPE_GENERICLABEL = 0 →
      TLV_HDR_SIZE ≤ len → 256 * c3 + c4 + TLV_HDR_SIZE ≤ len →
      decodeOptTlvs MSG_TYPE_LABELMAPPING (fuel + 1)
          (c1 :: c2 :: c3 :: c4 :: rest) len 1 st evs =
        .error (evs ++ [.notif .missMsg])) ∧
    (∀ (v fuel : Nat) (st : OptState) (evs : List Event),
      v < 4294967296 → LabelValid v →
      decodeOptTlvs MSG_TYPE_LABELMAPPING (fuel + 2)
          (gen_label_tlv v) LABEL_TLV_SIZE 1 st evs =
        .ok ({ st with label := v }, evs)) := by
  constructor
  · intro c1 c2 c3 c4 len fuel rest st evs hbit hlen htl
    simp only [decodeOptTlvs]
    rw [if_neg (by simp [TLV_HDR_SIZE] at hlen; omega),
        if_neg (by simp [TLV_HDR_SIZE] at hlen ⊢; omega)]
    have hrd : be16at (c1 :: c2 :: c3 :: c4 :: rest) 0 = 256 * c1 + c2 := by
      simp [be16at, List.getD]
    have hrd2 : be16at (c1 :: c2 :: c3 :: c4 :: rest) 2 = 256 * c3 + c4 := by
      simp [be16at, List.getD]
    rw [hrd, hrd2]
    rw [if_neg (by simp [TLV_HDR_SIZE] at htl ⊢; omega)]
    rw [if_pos ⟨by trivial, by trivial, hbit⟩]
  · intro v fuel st evs hv hval
    have hb : gen_label_tlv v = 2 :: 0 :: 0 :: 4 :: be32 v := rfl
    rw [hb]
    simp only [decodeOptTlvs]
    have hty : be16at (2 :: 0 :: 0 :: 4 :: be32 v) 0 = 512 := by
      simp [be16at, List.getD]
    have htl : be16at (2 :: 0 :: 0 :: 4 :: be32 v) 2 = 4 := by
      simp [be16at, List.getD]
    rw [hty, htl]
    rw [if_neg (by decide), if_neg (by decide), if_neg (by decide),
        if_neg (by decide)]
    have hdrop : List.drop TLV_HDR_SIZE (2 :: 0 :: 0 :: 4 :: be32 v) =
        be32 v := rfl
    rw [hdrop]
    have hread : be32at (be32 v) 0 = v := by
      simpa using be32at_be32 v hv []
    have hstep : opt_tlv_switch MSG_TYPE_LABELMAPPING 512 4 (be32 v) st evs =
        .cont { st with label := v } evs := by
      simp only [opt_tlv_switch]
      rw [if_neg (by decide), if_neg (by decide), if_pos (by decide)]
      rw [if_pos (by decide)]
      rw [if_neg (by decide)]
      rw [hread]
      rw [if_neg (by
        rcases hval with ⟨h1', h2⟩
        simp only [MPLS_LABEL_MAX, MPLS_LABEL_RESERVED_MAX,
          MPLS_LABEL_IPV4_EXPLICIT_NULL, MPLS_LABEL_IPV6_EXPLICIT_NULL,
          MPLS_LABEL_IMPLICIT_NULL] at h1' h2 ⊢
        omega)]
    rw [hstep]
    rfl

/-- C6 (corrected): a Prefix FEC element whose address family is neither
IPv4 (1) nor IPv6 (2) draws the `UnsupportedAddressFamily` Notification
and no session shutdown, but it aborts the decode of the entire message,
not only of that FEC element: `recv_labelmessage` returns failure and no
record of the message — including later well-formed FEC elements — is
dispatched. -/
theorem C6_unsup_af (b1 b2 len msgId : Nat) (rest : List Nat)
    (hne1 : 256 * b1 + b2 ≠ AF_IPV4) (hne2 : 256 * b1 + b2 ≠ AF_IPV6)
    (hlen : FEC_ELM_PREFIX_MIN_LEN ≤ len) :
    tlv_decode_fec_elm (MAP_TYPE_PREFIX :: b1 :: b2 :: rest) len msgId =
      .error (.notif .unsupAddr) ∧
    recv_labelmessage {} MSG_TYPE_LABELMAPPING msgBadAf =
      ⟨false, [.notif .unsupAddr]⟩ := by
  constructor
  · simp only [tlv_decode_fec_elm]
    rw [if_neg (by simp [List.getD, MAP_TYPE_PREFIX, MAP_TYPE_WILDCARD]),
        if_pos (by simp [List.getD])]
    simp only [tlv_decode_fec_pfx]
    rw [if_neg (by simp [FEC_ELM_PREFIX_MIN_LEN] at hlen ⊢; omega)]
    have hrd : be16at (MAP_TYPE_PREFIX :: b1 :: b2 :: rest) 1 =
        256 * b1 + b2 := by
      simp [be16at, List.getD]
    rw [hrd]
    rw [if_neg (by
      rintro (h | h)
      · exact hne1 (by simpa [AF_IPV4] using h)
      · exact hne2 (by simpa [AF_IPV6] using h))]
  · rfl

/-- C6 witness: address family 3 at the concrete element. -/
theorem C6_unsup_af_witness :
    tlv_decode_fec_elm (MAP_TYPE_PREFIX :: 0 :: 3 :: [24, 10, 0, 0]) 7 12 =
      .error (.notif .unsupAddr) := by
  exact (C6_unsup_af 0 3 7 12 [24, 10, 0, 0] (by norm_num [AF_IPV4])
    (by norm_num [AF_IPV6]) (by norm_num [FEC_ELM_PREFIX_MIN_LEN])).1

/-! Fatal-abort lemmas: every failing decode path ends in a non-deliver
event, so no record is handed off after a fatal condition. -/

lemma subtlvLoop_error_not_deliver (buf : List Nat) :
    ∀ (fuel off pw_len : Nat) (m : MapRec) (e : Event),
      subtlvLoop buf fuel off pw_len m = .error e → e.isDeliver = false := by
  intro fuel
  induction fuel with
  | zero =>
    intro off pw_len m e h
    simp only [subtlvLoop] at h
    injection h with h'
    subst h'; rfl
  | succ fuel ih =>
    intro off pw_len m e h
    simp only [subtlvLoop] at h
    split_ifs at h
    all_goals
      first
        | exact Except.noConfusion h
        | (injection h with h'; subst h'; rfl)
        | exact ih _ _ _ _ h

lemma tlv_decode_fec_wcard_error_not_deliver (len : Nat) (m0 : MapRec)
    (e : Event) (h : tlv_decode_fec_wcard len m0 = .error e) :
    e.isDeliver = false := by
  simp only [tlv_decode_fec_wcard] at h
  split_ifs at h
  all_goals
    first
      | exact Except.noConfusion h
      | (injection h with h'; subst h'; rfl)

lemma tlv_decode_fec_pfx_error_not_deliver (buf : List Nat) (len : Nat)
    (m0 : MapRec) (e : Event) (h : tlv_decode_fec_pfx buf len m0 = .error e) :
    e.isDeliver = false := by
  simp only [tlv_decode_fec_pfx] at h
  split_ifs at h
  all_goals
    first
      | exact Except.noConfusion h
      | (injection h with h'; subst h'; rfl)

lemma tlv_decode_fec_pwid_error_not_deliver (buf : List Nat) (len : Nat)
    (m0 : MapRec) (e : Event) (h : tlv_decode_fec_pwid buf len m0 = .error e) :
    e.isDeliver = false := by
  simp only [tlv_decode_fec_pwid] at h
  split_ifs at h
  all_goals
    first
      | exact Except.noConfusion h
      | (injection h with h'; subst h'; rfl)
      | exact subtlvLoop_error_not_deliver buf _ _ _ _ _ h

lemma tlv_decode_fec_twcard_error_not_deliver (buf : List Nat) (len : Nat)
    (m0 : MapRec) (e : Event)
    (h : tlv_decode_fec_twcard buf len m0 = .error e) :
    e.isDeliver = false := by
  simp only [tlv_decode_fec_twcard] at h
  split_ifs at h
  all_goals
    first
      | exact Except.noConfusion h
      | (injection h with h'; subst h'; rfl)

lemma tlv_decode_fec_elm_error_not_deliver (buf : List Nat)
    (len msgId : Nat) (e : Event)
    (h : tlv_decode_fec_elm buf len msgId = .error e) :
    e.isDeliver = false := by
  simp only [tlv_decode_fec_elm] at h
  split_ifs at h
  all_goals
    first
      | (injection h with h'; subst h'; rfl)
      | exact tlv_decode_fec_wcard_error_not_deliver _ _ _ h
      | exact tlv_decode_fec_pfx_error_not_deliver _ _ _ _ h
      | exact tlv_decode_fec_pwid_error_not_deliver _ _ _ _ h
      | exact tlv_decode_fec_twcard_error_not_deliver _ _ _ _ h

lemma fecLoop_error_not_deliver (t msgId : Nat) :
    ∀ (fuel : Nat) (buf : List Nat) (feclen : Nat) (acc : List MapRec)
      (used : Nat) (e : Event),
      fecLoop t msgId fuel buf feclen acc used = .error e →
      e.isDeliver = false := by
  intro fuel
  induction fuel with
  | zero =>
    intro buf feclen acc used e h
    simp only [fecLoop] at h
    injection h with h'; subst h'; rfl
  | succ fuel ih =>
    intro buf feclen acc used e h
    simp only [fecLoop] at h
    split at h
    next e' heq =>
      injection h with h'
      subst h'
      exact tlv_decode_fec_elm_error_not_deliver buf feclen msgId e' heq
    next tlen m heq =>
      split_ifs at h
      all_goals
        first
          | exact Except.noConfusion h
          | (injection h with h'; subst h'; rfl)
          | exact ih _ _ _ _ _ h

lemma opt_tlv_switch_fail_not_deliver (t tlv_type tlv_len : Nat)
    (body : List Nat) (st : OptState) (evs : List Event) (e : Event)
    (h : opt_tlv_switch t tlv_type tlv_len body st evs = .fail e) :
    e.isDeliver = false := by
  simp only [opt_tlv_switch] at h
  split_ifs at h
  all_goals
    first
      | exact OptAct.noConfusion h
      | (injection h with h'; subst h'; rfl)

lemma decodeOptTlvs_error_last (t : Nat) :
    ∀ (fuel : Nat) (buf : List Nat) (len cur : Nat) (st : OptState)
      (evs evs' : List Event),
      decodeOptTlvs t fuel buf len cur st evs = .error evs' →
      ∃ init e, evs' = init ++ [e] ∧ e.isDeliver = false := by
  intro fuel
  induction fuel with
  | zero =>
    intro buf len cur st evs evs' h
    simp only [decodeOptTlvs] at h
    injection h with h'
    exact ⟨evs, .stuck, h'.symm, rfl⟩
  | succ fuel ih =>
    intro buf len cur st evs evs' h
    simp only [decodeOptTlvs] at h
    split_ifs at h
    all_goals
      first
        | exact Except.noConfusion h
        | (injection h with h'; exact ⟨evs, _, h'.symm, rfl⟩)
        | skip
    split at h
    next e heq =>
      injection h with h'
      exact ⟨evs, e, h'.symm, opt_tlv_switch_fail_not_deliver _ _ _ _ _ _ _ heq⟩
    next st' evs2 heq =>
      exact ih _ _ _ _ _ _ h

lemma dispatchLoop_false_last (nbr : Nbr) (t : Nat) (st : OptState) :
    ∀ (ms : List MapRec) (acc : List Event) (out : RecvOut),
      dispatchLoop nbr t st ms acc = out → out.ok = false →
      ∃ init e, out.events = init ++ [e] ∧ e.isDeliver = false := by
  intro ms
  induction ms with
  | nil =>
    intro acc out h hok
    simp only [dispatchLoop] at h
    subst h; simp at hok
  | cons m rest ih =>
    intro acc out h hok
    simp only [dispatchLoop] at h
    split_ifs at h <;>
      first
        | (subst h; exact ⟨acc, _, rfl, rfl⟩)
        | exact ih _ _ h hok

lemma opt_tlv_switch_cont_not_deliver (t tlv_type tlv_len : Nat)
    (body : List Nat) (st : OptState) (evs : List Event) (st' : OptState)
    (evs' : List Event)
    (h : opt_tlv_switch t tlv_type tlv_len body st evs = .cont st' evs')
    (hacc : ∀ ev ∈ evs, ev.isDeliver = false) :
    ∀ ev ∈ evs', ev.isDeliver = false := by
  simp only [opt_tlv_switch] at h
  split_ifs at h
  all_goals
    first
      | exact OptAct.noConfusion h
      | (injection h with h1 h2; exact h2 ▸ hacc)
      | (injection h with h1 h2
         subst h2
         intro ev hev
         rcases List.mem_append.1 hev with h' | h'
         · exact hacc ev h'
         · simp at h'; subst h'; rfl)

/-- On the success path the optional-TLV loop only ever appends
Notification events (unknown-TLV reports), never record hand-offs. -/
lemma decodeOptTlvs_ok_not_deliver (t : Nat) :
    ∀ (fuel : Nat) (buf : List Nat) (len cur : Nat) (st : OptState)
      (evs : List Event) (st' : OptState) (evs' : List Event),
      decodeOptTlvs t fuel buf len cur st evs = .ok (st', evs') →
      (∀ ev ∈ evs, ev.isDeliver = false) →
      ∀ ev ∈ evs', ev.isDeliver = false := by
  intro fuel
  induction fuel with
  | zero =>
    intro buf len cur st evs st' evs' h
    simp only [decodeOptTlvs] at h
    exact Except.noConfusion h
  | succ fuel ih =>
    intro buf len cur st evs st' evs' h hacc
    simp only [decodeOptTlvs] at h
    split_ifs at h
    all_goals
      first
        | exact Except.noConfusion h
        | (injection h with h'
           rw [Prod.mk.injEq] at h'
           exact h'.2 ▸ hacc)
        | skip
    split at h
    next e heq => exact Except.noConfusion h
    next st2 evs2 heq =>
      exact ih _ _ _ _ _ _ _ h
        (opt_tlv_switch_cont_not_deliver _ _ _ _ _ _ _ _ heq hacc)

/-- C7 (corrected): when `recv_labelmessage` fails, its last side effect
is the fatal event itself (a shutdown or Notification, never a record
hand-off), so every queued-but-undispatched record is discarded and no
further record reaches the label-distribution engine; however, records
dispatched earlier in the same message's dispatch loop have already been
handed off — the decode result of a multi-FEC Mapping message is not
discarded in its entirety when a dispatch-time check fails (see the
counterexample). -/
theorem C7_fatal_abort (nbr : Nbr) (t : Nat) (buf : List Nat)
    (out : RecvOut) (hrun : recv_labelmessage nbr t buf = out)
    (hfail : out.ok = false) :
    ∃ init e, out.events = init ++ [e] ∧ e.isDeliver = false := by
  simp only [recv_labelmessage] at hrun
  split_ifs at hrun
  · subst hrun; exact ⟨[], .shutdown .badTlvLen, rfl, rfl⟩
  · subst hrun; exact ⟨[], .notif .missMsg, rfl, rfl⟩
  · subst hrun; exact ⟨[], .shutdown .badTlvLen, rfl, rfl⟩
  · split at hrun
    next e heq =>
      subst hrun
      exact ⟨[], e, rfl,
        fecLoop_error_not_deliver _ _ _ _ _ _ _ _ heq⟩
    next maps consumed heq =>
      split at hrun
      next evs heq2 =>
        subst hrun
        exact decodeOptTlvs_error_last _ _ _ _ _ _ _ _ heq2
      next st evs heq2 =>
        exact dispatchLoop_false_last nbr t st maps evs out hrun hfail

/-- C7 witness: a message whose FEC TLV length overruns the available
bytes fails with `BadTlvLen` as its only (non-deliver) event. -/
theorem C7_fatal_abort_witness :
    ∃ init e,
      (recv_labelmessage {} MSG_TYPE_LABELMAPPING
        (msgHdr MSG_TYPE_LABELMAPPING 1 ++ be16 TLV_TYPE_FEC ++
          be16 99)).events = init ++ [e] ∧ e.isDeliver = false := by
  exact C7_fatal_abort {} MSG_TYPE_LABELMAPPING _ _ rfl rfl

/-! Message-level uniformity lemmas (C9): flag-bit arithmetic over the
8-bit flag field, by finite check. -/

lemma flags_or16_inv : ∀ f < 64, f &&& 33 = 0 →
    (f ||| 16) &&& 33 = 0 ∧ f ||| 16 < 64 := by decide

lemma flags_or_small : ∀ f < 64, f ||| 1 < 64 ∧ f ||| 32 < 64 := by decide

lemma flags_or_mask : ∀ fm < 64, ∀ fs < 64, fm &&& 33 = 0 →
    (fm ||| fs) &&& 1 = fs &&& 1 ∧ (fm ||| fs) &&& 33 = fs &&& 33 := by
  decide

/-- The pseudowire sub-TLV walk never touches the request id and keeps
the flag field inside the FEC-owned bits. -/
lemma subtlvLoop_inv (buf : List Nat) :
    ∀ (fuel off pw_len : Nat) (m : MapRec) (off' : Nat) (m' : MapRec),
      subtlvLoop buf fuel off pw_len m = .ok (off', m') →
      m.requestid = 0 ∧ m.flags &&& 33 = 0 ∧ m.flags < 64 →
      m'.requestid = 0 ∧ m'.flags &&& 33 = 0 ∧ m'.flags < 64 := by
  intro fuel
  induction fuel with
  | zero =>
    intro off pw_len m off' m' h
    exact Except.noConfusion h
  | succ fuel ih =>
    intro off pw_len m off' m' h hm
    simp only [subtlvLoop] at h
    split_ifs at h
    all_goals
      first
        | exact Except.noConfusion h
        | (injection h with h'
           rw [Prod.mk.injEq] at h'
           exact h'.2 ▸ hm)
        | exact ih _ _ _ _ _ h hm
        | exact ih _ _ _ _ _ h
            ⟨hm.1, (flags_or16_inv m.flags hm.2.2 hm.2.1).1,
             (flags_or16_inv m.flags hm.2.2 hm.2.1).2⟩

/-- A decoded FEC element has request id 0 and only FEC-owned flag bits
(the optional-TLV bits `F_MAP_REQ_ID` and `F_MAP_PW_STATUS` are clear). -/
lemma tlv_decode_fec_elm_inv (buf : List Nat) (len msgId : Nat)
    (tlen : Nat) (m : MapRec)
    (h : tlv_decode_fec_elm buf len msgId = .ok (tlen, m)) :
    m.requestid = 0 ∧ m.flags &&& 33 = 0 ∧ m.flags < 64 := by
  simp only [tlv_decode_fec_elm] at h
  split_ifs at h
  case _ =>
    simp only [tlv_decode_fec_wcard] at h
    split_ifs at h
    all_goals
      first
        | exact Except.noConfusion h
        | (injection h with h'; rw [Prod.mk.injEq] at h'
           rw [← h'.2]
           exact ⟨rfl,
             by first
                | decide
                | (simp [F_MAP_PW_CWORD, F_MAP_PW_ID, F_MAP_PW_IFMTU] <;>
                    decide),
             by first
                | decide
                | (simp [F_MAP_PW_CWORD, F_MAP_PW_ID, F_MAP_PW_IFMTU] <;>
                    decide)⟩)
  case _ =>
    simp only [tlv_decode_fec_pfx] at h
    split_ifs at h
    all_goals
      first
        | exact Except.noConfusion h
        | (injection h with h'; rw [Prod.mk.injEq] at h'
           rw [← h'.2]
           exact ⟨rfl,
             by first
                | decide
                | (simp [F_MAP_PW_CWORD, F_MAP_PW_ID, F_MAP_PW_IFMTU] <;>
                    decide),
             by first
                | decide
                | (simp [F_MAP_PW_CWORD, F_MAP_PW_ID, F_MAP_PW_IFMTU] <;>
                    decide)⟩)
  case _ =>
    simp only [tlv_decode_fec_pwid] at h
    split_ifs at h
    all_goals
      first
        | exact Except.noConfusion h
        | (injection h with h'; rw [Prod.mk.injEq] at h'
           rw [← h'.2]
           exact ⟨rfl,
             by first
                | decide
                | (simp [F_MAP_PW_CWORD, F_MAP_PW_ID, F_MAP_PW_IFMTU] <;>
                    decide),
             by first
                | decide
                | (simp [F_MAP_PW_CWORD, F_MAP_PW_ID, F_MAP_PW_IFMTU] <;>
                    decide)⟩)
        | exact subtlvLoop_inv buf _ _ _ _ _ _ h
            ⟨rfl,
             by first
                | decide
                | (simp [F_MAP_PW_CWORD, F_MAP_PW_ID, F_MAP_PW_IFMTU] <;>
                    decide),
             by first
                | decide
                | (simp [F_MAP_PW_CWORD, F_MAP_PW_ID, F_MAP_PW_IFMTU] <;>
                    decide)⟩
  case _ =>
    simp only [tlv_decode_fec_twcard] at h
    split_ifs at h
    all_goals
      first
        | exact Except.noConfusion h
        | (injection h with h'; rw [Prod.mk.injEq] at h'
           rw [← h'.2]
           exact ⟨rfl,
             by first
                | decide
                | (simp [F_MAP_PW_CWORD, F_MAP_PW_ID, F_MAP_PW_IFMTU] <;>
                    decide),
             by first
                | decide
                | (simp [F_MAP_PW_CWORD, F_MAP_PW_ID, F_MAP_PW_IFMTU] <;>
                    decide)⟩)
  all_goals exact Except.noConfusion h

/-- Every record collected by the FEC-element loop satisfies the
FEC-side invariant. -/
lemma fecLoop_inv (t msgId : Nat) :
    ∀ (fuel : Nat) (buf : List Nat) (feclen : Nat) (acc : List MapRec)
      (used : Nat) (maps : List MapRec) (consumed : Nat),
      fecLoop t msgId fuel buf feclen acc used = .ok (maps, consumed) →
      (∀ m ∈ acc, m.requestid = 0 ∧ m.flags &&& 33 = 0 ∧ m.flags < 64) →
      ∀ m ∈ maps, m.requestid = 0 ∧ m.flags &&& 33 = 0 ∧ m.flags < 64 := by
  intro fuel
  induction fuel with
  | zero =>
    intro buf feclen acc used maps consumed h
    exact Except.noConfusion h
  | succ fuel ih =>
    intro buf feclen acc used maps consumed h hacc
    simp only [fecLoop] at h
    split at h
    next e heq => exact Except.noConfusion h
    next tlen m heq =>
      have hm := tlv_decode_fec_elm_inv _ _ _ _ _ heq
      have hext : ∀ m' ∈ acc ++ [m],
          m'.requestid = 0 ∧ m'.flags &&& 33 = 0 ∧ m'.flags < 64 := by
        intro m' hm'
        rcases List.mem_append.1 hm' with h' | h'
        · exact hacc m' h'
        · simp at h'; subst h'; exact hm
      split_ifs at h
      all_goals
        first
          | exact Except.noConfusion h
          | (injection h with h'
             rw [Prod.mk.injEq] at h'
             exact h'.1 ▸ hext)
          | exact ih _ _ _ _ _ _ h hext

/-- The optional-TLV switch keeps the message-level flag field small. -/
lemma opt_tlv_switch_flags (t tlv_type tlv_len : Nat) (body : List Nat)
    (st : OptState) (evs : List Event) (st' : OptState) (evs' : List Event)
    (h : opt_tlv_switch t tlv_type tlv_len body st evs = .cont st' evs')
    (hst : st.flags < 64) : st'.flags < 64 := by
  simp only [opt_tlv_switch] at h
  split_ifs at h
  all_goals
    first
      | exact OptAct.noConfusion h
      | (injection h with h1 h2; exact h1 ▸ hst)
      | (injection h with h1 h2; rw [← h1]
         exact (flags_or_small st.flags hst).1)
      | (injection h with h1 h2; rw [← h1]
         exact (flags_or_small st.flags hst).2)

/-- The optional-TLV loop keeps the message-level flag field small. -/
lemma decodeOptTlvs_flags (t : Nat) :
    ∀ (fuel : Nat) (buf : List Nat) (len cur : Nat) (st : OptState)
      (evs : List Event) (st' : OptState) (evs' : List Event),
      decodeOptTlvs t fuel buf len cur st evs = .ok (st', evs') →
      st.flags < 64 → st'.flags < 64 := by
  intro fuel
  induction fuel with
  | zero =>
    intro buf len cur st evs st' evs' h
    exact Except.noConfusion h
  | succ fuel ih =>
    intro buf len cur st evs st' evs' h hst
    simp only [decodeOptTlvs] at h
    split_ifs at h
    all_goals
      first
        | exact Except.noConfusion h
        | (injection h with h'
           rw [Prod.mk.injEq] at h'
           exact h'.1 ▸ hst)
        | skip
    split at h
    next e heq => exact Except.noConfusion h
    next st2 evs2 heq =>
      exact ih _ _ _ _ _ _ _ h (opt_tlv_switch_flags _ _ _ _ _ _ _ _ heq hst)

/-- Field values of an assembled record: the label, request id and
optional-TLV flag bits come from the message-level state. -/
lemma dispatch_assemble_fields (m : MapRec) (st : OptState)
    (hm : m.requestid = 0 ∧ m.flags &&& 33 = 0 ∧ m.flags < 64)
    (hst : st.flags < 64) :
    (dispatch_assemble m st).label = st.label ∧
    (dispatch_assemble m st).requestid =
      (if st.flags &&& 1 ≠ 0 then st.reqid else 0) ∧
    (dispatch_assemble m st).flags &&& 33 = st.flags &&& 33 := by
  obtain ⟨hor1, hor2⟩ := flags_or_mask m.flags hm.2.2 st.flags hst hm.2.1
  have hflag : F_MAP_REQ_ID = 1 := rfl
  simp only [dispatch_assemble, hflag]
  split_ifs with h1 h2 h3 <;>
    simp_all <;> omega

/-- Every record the dispatch loop hands off carries the message-level
label, request id and optional-TLV flag bits. -/
lemma dispatchLoop_deliver_uniform (nbr : Nbr) (t : Nat) (st : OptState)
    (hst : st.flags < 64) :
    ∀ (ms : List MapRec) (acc : List Event) (out : RecvOut),
      dispatchLoop nbr t st ms acc = out →
      (∀ m ∈ ms, m.requestid = 0 ∧ m.flags &&& 33 = 0 ∧ m.flags < 64) →
      (∀ e ∈ acc, ∀ i mm, e = Event.deliver i mm →
        mm.label = st.label ∧
        mm.requestid = (if st.flags &&& 1 ≠ 0 then st.reqid else 0) ∧
        mm.flags &&& 33 = st.flags &&& 33) →
      ∀ e ∈ out.events, ∀ i mm, e = Event.deliver i mm →
        mm.label = st.label ∧
        mm.requestid = (if st.flags &&& 1 ≠ 0 then st.reqid else 0) ∧
        mm.flags &&& 33 = st.flags &&& 33 := by
  intro ms
  induction ms with
  | nil =>
    intro acc out h hms hacc
    simp only [dispatchLoop] at h
    subst h; exact hacc
  | cons m rest ih =>
    intro acc out h hms hacc
    have hm := hms m (List.mem_cons_self m rest)
    have hrest := fun m' hm' => hms m' (List.mem_cons_of_mem m hm')
    have hext : ∀ e ∈ acc ++ [Event.deliver (imsgOf t) (dispatch_assemble m st)],
        ∀ i mm, e = Event.deliver i mm →
        mm.label = st.label ∧
        mm.requestid = (if st.flags &&& 1 ≠ 0 then st.reqid else 0) ∧
        mm.flags &&& 33 = st.flags &&& 33 := by
      intro e he i mm hemm
      rcases List.mem_append.1 he with h' | h'
      · exact hacc e h' i mm hemm
      · simp at h'
        subst h'
        injection hemm with hi hmm
        exact hmm ▸ dispatch_assemble_fields m st hm hst
    have hlit : ∀ ev : Event, ev.isDeliver = false →
        ∀ e ∈ acc ++ [ev], ∀ i mm, e = Event.deliver i mm →
        mm.label = st.label ∧
        mm.requestid = (if st.flags &&& 1 ≠ 0 then st.reqid else 0) ∧
        mm.flags &&& 33 = st.flags &&& 33 := by
      intro ev hev e he i mm hemm
      rcases List.mem_append.1 he with h' | h'
      · exact hacc e h' i mm hemm
      · simp at h'
        subst h'
        subst hemm
        simp [Event.isDeliver] at hev
    simp only [dispatchLoop] at h
    split_ifs at h
    all_goals
      first
        | (subst h; exact hlit _ rfl)
        | exact ih _ _ h hrest hacc
        | exact ih _ _ h hrest hext

/-- C9: in every successfully decoded Label message, all dispatched
records carry identical message-level values — the same resolved label,
the same request id (the message request id when the has-request-id flag
was set, else 0), and the same optional-TLV flag bits
(`F_MAP_REQ_ID ||| F_MAP_PW_STATUS` = 33) OR-ed into their flags —
because the optional TLVs are parsed once per message, never per FEC
element. -/
theorem C9_uniform_dispatch (nbr : Nbr) (t : Nat) (buf : List Nat)
    (out : RecvOut) (hrun : recv_labelmessage nbr t buf = out)
    (hok : out.ok = true) :
    ∃ L R F, ∀ e ∈ out.events, ∀ i mm, e = Event.deliver i mm →
      mm.label = L ∧ mm.requestid = R ∧
      mm.flags &&& (F_MAP_REQ_ID ||| F_MAP_PW_STATUS) = F := by
  simp only [recv_labelmessage] at hrun
  split_ifs at hrun
  · subst hrun; cases hok
  · subst hrun; cases hok
  · subst hrun; cases hok
  · split at hrun
    next e heq => subst hrun; cases hok
    next maps consumed heq =>
      split at hrun
      next evs heq2 => subst hrun; cases hok
      next st evs heq2 =>
        refine ⟨st.label, (if st.flags &&& 1 ≠ 0 then st.reqid else 0),
          st.flags &&& 33, ?_⟩
        have hflags : st.flags < 64 :=
          decodeOptTlvs_flags t _ _ _ _ _ _ _ _ heq2 (by decide)
        have hmaps := fecLoop_inv t _ _ _ _ _ _ _ _ heq (by simp)
        have hevs : ∀ e ∈ evs, ∀ i mm, e = Event.deliver i mm →
            mm.label = st.label ∧
            mm.requestid = (if st.flags &&& 1 ≠ 0 then st.reqid else 0) ∧
            mm.flags &&& 33 = st.flags &&& 33 := by
          intro e he i mm hemm
          have := decodeOptTlvs_ok_not_deliver t _ _ _ _ _ _ _ _ heq2
            (by simp) e he
          subst hemm
          simp [Event.isDeliver] at this
        have := dispatchLoop_deliver_uniform nbr t st hflags maps evs out
          hrun hmaps hevs
        simpa [F_MAP_REQ_ID, F_MAP_PW_STATUS] using this

/-- C9 witness: the two records of a two-Prefix Mapping message carry
the same label, request id and optional flag bits. -/
theorem C9_uniform_dispatch_witness :
    ∃ L R F,
      ∀ e ∈ (recv_labelmessage {} MSG_TYPE_LABELMAPPING msgTwoPfx).events,
      ∀ i mm, e = Event.deliver i mm →
        mm.label = L ∧ mm.requestid = R ∧
        mm.flags &&& (F_MAP_REQ_ID ||| F_MAP_PW_STATUS) = F := by
  exact C9_uniform_dispatch {} MSG_TYPE_LABELMAPPING msgTwoPfx _ rfl rfl

/-! Round-trip lemmas (C1): stepping the optional-TLV loop over the
sender's TLVs. -/

/-- An exhausted optional-TLV region ends the loop successfully. -/
lemma opt_step_done (t fuel cur : Nat) (buf : List Nat) (st : OptState)
    (evs : List Event) :
    decodeOptTlvs t (fuel + 1) buf 0 cur st evs = .ok (st, evs) := by
  simp only [decodeOptTlvs]
  rw [if_pos trivial]

/-- Decoding one Generic Label TLV at the head of the region. -/
lemma opt_step_label (v n fuel cur : Nat) (rest : List Nat) (st : OptState)
    (evs : List Event) (hv : v < 4294967296) (hval : LabelValid v) :
    decodeOptTlvs MSG_TYPE_LABELMAPPING (fuel + 1) (gen_label_tlv v ++ rest)
        (n + 8) cur st evs =
      decodeOptTlvs MSG_TYPE_LABELMAPPING fuel rest n (cur + 1)
        { st with label := v } evs := by
  have hb : gen_label_tlv v ++ rest = 2 :: 0 :: 0 :: 4 :: (be32 v ++ rest) :=
    rfl
  rw [hb]
  simp only [decodeOptTlvs]
  have hty : be16at (2 :: 0 :: 0 :: 4 :: (be32 v ++ rest)) 0 = 512 := by
    simp [be16at, List.getD]
  have htl : be16at (2 :: 0 :: 0 :: 4 :: (be32 v ++ rest)) 2 = 4 := by
    simp [be16at, List.getD]
  rw [hty, htl]
  rw [if_neg (by omega), if_neg (by simp [TLV_HDR_SIZE]; try omega),
      if_neg (by simp [TLV_HDR_SIZE]; try omega)]
  rw [if_neg (by rintro ⟨-, -, hz⟩; exact absurd hz (by decide))]
  have hdrop : List.drop TLV_HDR_SIZE (2 :: 0 :: 0 :: 4 :: (be32 v ++ rest)) =
      be32 v ++ rest := rfl
  rw [hdrop]
  have hstep : opt_tlv_switch MSG_TYPE_LABELMAPPING 512 4 (be32 v ++ rest)
      st evs = .cont { st with label := v } evs := by
    simp only [opt_tlv_switch]
    rw [if_neg (by decide), if_neg (by decide), if_pos (by decide)]
    rw [if_pos (by decide)]
    rw [if_neg (by decide)]
    rw [be32at_be32 v hv rest]
    rw [if_neg (by
      rcases hval with ⟨h1', h2⟩
      simp only [MPLS_LABEL_MAX, MPLS_LABEL_RESERVED_MAX,
        MPLS_LABEL_IPV4_EXPLICIT_NULL, MPLS_LABEL_IPV6_EXPLICIT_NULL,
        MPLS_LABEL_IMPLICIT_NULL] at h1' h2 ⊢
      omega)]
  rw [hstep]
  rfl

/-- Decoding one Request-ID TLV at the head of the region (for a Label
Mapping message it passes the first-TLV rule: type 0x0600 carries the
0x0200 bit). -/
lemma opt_step_reqid (r n fuel cur : Nat) (rest : List Nat) (st : OptState)
    (evs : List Event) (hr : r < 4294967296) :
    decodeOptTlvs MSG_TYPE_LABELMAPPING (fuel + 1) (gen_reqid_tlv r ++ rest)
        (n + 8) cur st evs =
      decodeOptTlvs MSG_TYPE_LABELMAPPING fuel rest n (cur + 1)
        { st with flags := st.flags ||| F_MAP_REQ_ID, reqid := r } evs := by
  have hb : gen_reqid_tlv r ++ rest = 6 :: 0 :: 0 :: 4 :: (be32 r ++ rest) :=
    rfl
  rw [hb]
  simp only [decodeOptTlvs]
  have hty : be16at (6 :: 0 :: 0 :: 4 :: (be32 r ++ rest)) 0 = 1536 := by
    simp [be16at, List.getD]
  have htl : be16at (6 :: 0 :: 0 :: 4 :: (be32 r ++ rest)) 2 = 4 := by
    simp [be16at, List.getD]
  rw [hty, htl]
  rw [if_neg (by omega), if_neg (by simp [TLV_HDR_SIZE]; try omega),
      if_neg (by simp [TLV_HDR_SIZE]; try omega)]
  rw [if_neg (by rintro ⟨-, -, hz⟩; exact absurd hz (by decide))]
  have hdrop : List.drop TLV_HDR_SIZE (6 :: 0 :: 0 :: 4 :: (be32 r ++ rest)) =
      be32 r ++ rest := rfl
  rw [hdrop]
  have hstep : opt_tlv_switch MSG_TYPE_LABELMAPPING 1536 4 (be32 r ++ rest)
      st evs =
      .cont { st with flags := st.flags ||| F_MAP_REQ_ID, reqid := r } evs := by
    simp only [opt_tlv_switch]
    rw [if_pos (by decide), if_pos (by decide), if_neg (by decide)]
    rw [be32at_be32 r hr rest]
  rw [hstep]
  rfl

/-- Decoding one Pseudowire Status TLV at the head of the region, past
the first position (its type 0x096A lacks the 0x0200 bit). -/
lemma opt_step_pw_status (w n fuel cur : Nat) (rest : List Nat)
    (st : OptState) (evs : List Event) (hw : w < 4294967296)
    (hcur : cur ≠ 1) :
    decodeOptTlvs MSG_TYPE_LABELMAPPING (fuel + 1)
        (gen_pw_status_tlv w ++ rest) (n + 8) cur st evs =
      decodeOptTlvs MSG_TYPE_LABELMAPPING fuel rest n (cur + 1)
        { st with flags := st.flags ||| F_MAP_PW_STATUS, pwStatus := w }
        evs := by
  have hb : gen_pw_status_tlv w ++ rest =
      9 :: 106 :: 0 :: 4 :: (be32 w ++ rest) := rfl
  rw [hb]
  simp only [decodeOptTlvs]
  have hty : be16at (9 :: 106 :: 0 :: 4 :: (be32 w ++ rest)) 0 = 2410 := by
    simp [be16at, List.getD]
  have htl : be16at (9 :: 106 :: 0 :: 4 :: (be32 w ++ rest)) 2 = 4 := by
    simp [be16at, List.getD]
  rw [hty, htl]
  rw [if_neg (by omega), if_neg (by simp [TLV_HDR_SIZE]; try omega),
      if_neg (by simp [TLV_HDR_SIZE]; try omega)]
  rw [if_neg (by rintro ⟨hc, -, -⟩; exact hcur hc)]
  have hdrop : List.drop TLV_HDR_SIZE
      (9 :: 106 :: 0 :: 4 :: (be32 w ++ rest)) = be32 w ++ rest := rfl
  rw [hdrop]
  have hstep : opt_tlv_switch MSG_TYPE_LABELMAPPING 2410 4 (be32 w ++ rest)
      st evs =
      .cont { st with flags := st.flags ||| F_MAP_PW_STATUS, pwStatus := w }
        evs := by
    simp only [opt_tlv_switch]
    rw [if_neg (by decide), if_neg (by decide), if_neg (by decide),
        if_neg (by decide), if_neg (by decide), if_pos (by decide)]
    rw [if_pos (by decide), if_neg (by decide)]
    rw [be32at_be32 w hw rest]
  rw [hstep]
  rfl

/-! Round-trip lemmas (C1): padding, pw-type bit arithmetic and flag-bit
recombination helpers. -/

lemma padTake_length (l : List Nat) (n : Nat) : (padTake l n).length = n := by
  simp [padTake]

lemma padTake_of_length (l : List Nat) (n : Nat) (h : l.length = n) :
    padTake l n = l := by
  simp [padTake, ← h]

lemma pwtype_lor_lt (x : Nat) (hx : x < 32768) : x ||| 32768 < 65536 := by
  have h : x ||| 32768 < 2 ^ 16 := Nat.or_lt_two_pow (by omega) (by norm_num)
  omega

lemma pwtype_lor_cword (x : Nat) (hx : x < 32768) :
    (x ||| 32768) &&& 32768 ≠ 0 := by
  intro h
  have ht : ((x ||| 32768) &&& 32768).testBit 15 = true := by
    rw [Nat.testBit_and, Nat.testBit_or]
    have hb : Nat.testBit 32768 15 = true := by
      have h15 : (32768 : Nat) = 2 ^ 15 := by norm_num
      rw [h15, Nat.testBit_two_pow]
      decide
    rw [hb]
    simp
  rw [h] at ht
  simp at ht

lemma pwtype_lor_mask (x : Nat) (hx : x < 32768) :
    (x ||| 32768) &&& 32767 = x := by
  have h15 : (32768 : Nat) = 2 ^ 15 := by norm_num
  have h15m : (32767 : Nat) = 2 ^ 15 - 1 := by norm_num
  apply Nat.eq_of_testBit_eq
  intro i
  rw [Nat.testBit_and, Nat.testBit_or, h15, h15m,
    Nat.testBit_two_pow, Nat.testBit_two_pow_sub_one]
  by_cases hi : i < 15
  · simp [hi, Nat.ne_of_gt hi]
  · have hxf : x.testBit i = false :=
      Nat.testBit_lt_two_pow (by
        calc x < 2 ^ 15 := by omega
        _ ≤ 2 ^ i := Nat.pow_le_pow_right (by norm_num) (by omega))
    simp [hi, hxf]

lemma pwtype_nocword (x : Nat) (hx : x < 32768) : x &&& 32768 = 0 := by
  apply Nat.eq_of_testBit_eq
  intro i
  rw [Nat.testBit_and]
  have h15 : (32768 : Nat) = 2 ^ 15 := by norm_num
  by_cases hi : i = 15
  · subst hi
    rw [Nat.testBit_lt_two_pow (by omega)]
    simp
  · rw [h15, Nat.testBit_two_pow]
    simp [Ne.symm hi]

lemma pwtype_mask_self (x : Nat) (hx : x < 32768) : x &&& 32767 = x := by
  have h1 : (32767 : Nat) = 2 ^ 15 - 1 := by norm_num
  rw [h1, Nat.and_pow_two_sub_one_eq_mod, Nat.mod_eq_of_lt (by omega)]

/-- How the optional-TLV loop's accumulated flag value relates to the
sender's flag word, case by case over the two optional-TLV flag bits. -/
lemma opt_flags_val : ∀ f < 64, f &&& 33 =
    (if f &&& F_MAP_REQ_ID = 0 then 0 else 1) +
      (if f &&& F_MAP_PW_STATUS = 0 then 0 else 32) := by
  decide

/-- The FEC-owned flag bits recombined with the optional-TLV flag bits
give back the sender's flag word (the status bit being clear). -/
lemma flags_28_or_33 : ∀ f < 64, f &&& 2 = 0 →
    (f &&& 28) ||| (f &&& 33) = f := by decide

/-- The FEC-owned flag bits of a PWID record carrying neither pw-id nor
interface MTU, in the exact shape the decoder accumulates them. -/
lemma pw28_none : ∀ f < 64,
    (f &&& F_MAP_PW_CWORD = 0 → f &&& F_MAP_PW_ID = 0 →
      f &&& F_MAP_PW_IFMTU = 0 → f &&& 28 = 0) ∧
    (f &&& F_MAP_PW_CWORD ≠ 0 → f &&& F_MAP_PW_ID = 0 →
      f &&& F_MAP_PW_IFMTU = 0 → f &&& 28 = 0 ||| F_MAP_PW_CWORD) := by
  decide

/-- The FEC-owned flag bits of a PWID record carrying a pw-id but no
interface MTU, in the exact shape the decoder accumulates them. -/
lemma pw28_id : ∀ f < 64,
    (f &&& F_MAP_PW_CWORD = 0 → f &&& F_MAP_PW_ID ≠ 0 →
      f &&& F_MAP_PW_IFMTU = 0 → f &&& 28 = 0 ||| F_MAP_PW_ID) ∧
    (f &&& F_MAP_PW_CWORD ≠ 0 → f &&& F_MAP_PW_ID ≠ 0 →
      f &&& F_MAP_PW_IFMTU = 0 →
      f &&& 28 = (0 ||| F_MAP_PW_CWORD) ||| F_MAP_PW_ID) := by
  decide

/-- The FEC-owned flag bits of a PWID record carrying a pw-id and an
interface MTU, in the exact shape the decoder accumulates them. -/
lemma pw28_id_mtu : ∀ f < 64,
    (f &&& F_MAP_PW_CWORD = 0 → f &&& F_MAP_PW_ID ≠ 0 →
      f &&& F_MAP_PW_IFMTU ≠ 0 →
      f &&& 28 = (0 ||| F_MAP_PW_ID) ||| F_MAP_PW_IFMTU) ∧
    (f &&& F_MAP_PW_CWORD ≠ 0 → f &&& F_MAP_PW_ID ≠ 0 →
      f &&& F_MAP_PW_IFMTU ≠ 0 →
      f &&& 28 =
        ((0 ||| F_MAP_PW_CWORD) ||| F_MAP_PW_ID) ||| F_MAP_PW_IFMTU) := by
  decide

/-- An exhausted pseudowire sub-TLV region ends the walk. -/
lemma subtlvLoop_zero (buf : List Nat) (fuel off : Nat) (m : MapRec) :
    subtlvLoop buf (fuel + 1) off 0 m = .ok (off, m) := by
  simp only [subtlvLoop]
  rw [if_pos trivial]

/-- One interface-MTU sub-TLV at the head of the sub-TLV region. -/
lemma subtlvLoop_one_ifmtu (buf : List Nat) (fuel off : Nat) (m : MapRec)
    (hst : buf.getD off 0 = SUBTLV_IFMTU)
    (hsl : buf.getD (off + 1) 0 = FEC_SUBTLV_IFMTU_SIZE) :
    subtlvLoop buf (fuel + 1) off 4 m =
      subtlvLoop buf fuel (off + 4) 0
        { m with ifmtu := be16at buf (off + SUBTLV_HDR_SIZE),
                 flags := m.flags ||| F_MAP_PW_IFMTU } := by
  simp only [subtlvLoop]
  rw [hst, hsl]
  rw [if_neg (by decide), if_neg (by decide), if_neg (by decide),
      if_pos rfl, if_neg (by decide)]
  rfl

/-- The record assembly before dispatch: the label, flag word and
request id are rebuilt from the message-level state, every FEC payload
field is kept. -/
lemma dispatch_assemble_parts (m : MapRec) (st : OptState) :
    (dispatch_assemble m st).type = m.type ∧
    (dispatch_assemble m st).label = st.label ∧
    (dispatch_assemble m st).flags = m.flags ||| st.flags ∧
    (dispatch_assemble m st).pfxAf = m.pfxAf ∧
    (dispatch_assemble m st).pfxLen = m.pfxLen ∧
    (dispatch_assemble m st).pfx = m.pfx ∧
    (dispatch_assemble m st).pwType = m.pwType ∧
    (dispatch_assemble m st).groupId = m.groupId ∧
    (dispatch_assemble m st).pwid = m.pwid ∧
    (dispatch_assemble m st).ifmtu = m.ifmtu ∧
    (dispatch_assemble m st).twcardType = m.twcardType ∧
    (dispatch_assemble m st).twcardAf = m.twcardAf ∧
    (dispatch_assemble m st).twcardPwType = m.twcardPwType := by
  simp only [dispatch_assemble]
  split_ifs <;> simp

/-- Round-trip of the optional-TLV region: decoding the TLVs
`send_labelmessage` emits for a record (status TLV absent, and the
pseudowire-status TLV only alongside a label, so that it is never the
first TLV) recovers the record's label, request id, pseudowire status
and optional-TLV flag bits. -/
lemma opt_roundtrip (m : MapRec) (hreq : m.requestid < 2 ^ 32)
    (hpws : m.pwStatus < 2 ^ 32) (hfl : m.flags < 64)
    (hlab : m.label = NO_LABEL ∨ LabelValid m.label)
    (h1 : m.flags &&& F_MAP_STATUS = 0)
    (h3 : m.label = NO_LABEL → m.flags &&& F_MAP_PW_STATUS ≠ 0 →
      m.flags &&& F_MAP_REQ_ID ≠ 0) :
    ∃ st : OptState,
      decodeOptTlvs MSG_TYPE_LABELMAPPING ((gen_opt_tlvs m).length + 1)
        (gen_opt_tlvs m) (gen_opt_tlvs m).length 1 {} [] = .ok (st, []) ∧
      st.label = m.label ∧ st.flags = m.flags &&& 33 ∧
      (m.flags &&& F_MAP_REQ_ID ≠ 0 → st.reqid = m.requestid) ∧
      (m.flags &&& F_MAP_PW_STATUS ≠ 0 → st.pwStatus = m.pwStatus) := by
  have hreq' : m.requestid < 4294967296 := by omega
  have hpws' : m.pwStatus < 4294967296 := by omega
  by_cases hl : m.label = NO_LABEL
  · by_cases hr : m.flags &&& F_MAP_REQ_ID = 0
    · -- no request id: a pw-status TLV would be the first TLV, excluded
      have hp : m.flags &&& F_MAP_PW_STATUS = 0 := by
        by_contra hh
        exact (h3 hl hh) hr
      -- no optional TLVs at all
      have hob : gen_opt_tlvs m = [] := by
        simp [gen_opt_tlvs, hl, hr, hp, h1]
      refine ⟨{}, ?_, hl.symm, ?_, ?_, ?_⟩
      · rw [hob]
        exact opt_step_done MSG_TYPE_LABELMAPPING 0 1 [] {} []
      · rw [opt_flags_val m.flags hfl, if_pos hr, if_pos hp]
      · intro h; exact absurd hr h
      · intro h; exact absurd hp h
    · by_cases hp : m.flags &&& F_MAP_PW_STATUS = 0
      · -- request-id TLV only
        have hob : gen_opt_tlvs m = gen_reqid_tlv m.requestid := by
          simp [gen_opt_tlvs, hl, hr, hp, h1]
        have hlen : (gen_opt_tlvs m).length = 8 := by rw [hob]; rfl
        refine ⟨{ reqid := m.requestid, flags := 0 ||| F_MAP_REQ_ID }, ?_,
          hl.symm, ?_, fun _ => rfl, ?_⟩
        · rw [hlen, hob]
          have e1 := opt_step_reqid m.requestid 0 8 1 [] {} [] hreq'
          have e2 := opt_step_done MSG_TYPE_LABELMAPPING 7 2
            ([] : List Nat)
            { reqid := m.requestid, flags := 0 ||| F_MAP_REQ_ID } []
          exact e1.trans e2
        · rw [opt_flags_val m.flags hfl, if_neg hr, if_pos hp]
          rfl
        · intro h; exact absurd hp h
      · -- request-id TLV then pseudowire-status TLV, no label: the
        -- request-id TLV (type 0x0600 carries the 0x0200 bit) is first
        have hob : gen_opt_tlvs m =
            gen_reqid_tlv m.requestid ++ gen_pw_status_tlv m.pwStatus := by
          simp [gen_opt_tlvs, hl, hr, hp, h1]
        have hlen : (gen_opt_tlvs m).length = 16 := by rw [hob]; rfl
        refine ⟨{ reqid := m.requestid, pwStatus := m.pwStatus, flags := (0 ||| F_MAP_REQ_ID) ||| F_MAP_PW_STATUS }, ?_, hl.symm, ?_, fun _ => rfl, fun _ => rfl⟩
        · rw [hlen, hob]
          have e1 := opt_step_reqid m.requestid 8 16 1
            (gen_pw_status_tlv m.pwStatus) {} [] hreq'
          have e2 := opt_step_pw_status m.pwStatus 0 15 2 []
            { reqid := m.requestid, flags := 0 ||| F_MAP_REQ_ID } []
            hpws' (by decide)
          have e3 := opt_step_done MSG_TYPE_LABELMAPPING 14 3
            ([] : List Nat)
            { reqid := m.requestid, pwStatus := m.pwStatus,
              flags := (0 ||| F_MAP_REQ_ID) ||| F_MAP_PW_STATUS } []
          exact e1.trans (e2.trans e3)
        · rw [opt_flags_val m.flags hfl, if_neg hr, if_neg hp]
          rfl
  · -- label TLV present, first
    have hval : LabelValid m.label := by
      rcases hlab with h | h
      · exact absurd h hl
      · exact h
    have hv : m.label < 4294967296 := by
      have := hval.1
      simp only [MPLS_LABEL_MAX] at this
      omega
    by_cases hr : m.flags &&& F_MAP_REQ_ID = 0
    · by_cases hp : m.flags &&& F_MAP_PW_STATUS = 0
      · -- label only
        have hob : gen_opt_tlvs m = gen_label_tlv m.label := by
          simp [gen_opt_tlvs, hl, hr, hp, h1]
        have hlen : (gen_opt_tlvs m).length = 8 := by rw [hob]; rfl
        refine ⟨{ label := m.label }, ?_, rfl, ?_, ?_, ?_⟩
        · rw [hlen, hob]
          have e1 := opt_step_label m.label 0 8 1 [] {} [] hv hval
          have e2 := opt_step_done MSG_TYPE_LABELMAPPING 7 2 ([] : List Nat)
            { label := m.label } []
          exact e1.trans e2
        · rw [opt_flags_val m.flags hfl, if_pos hr, if_pos hp]
        · intro h; exact absurd hr h
        · intro h; exact absurd hp h
      · -- label then pseudowire-status TLV
        have hob : gen_opt_tlvs m =
            gen_label_tlv m.label ++ gen_pw_status_tlv m.pwStatus := by
          simp [gen_opt_tlvs, hl, hr, hp, h1]
        have hlen : (gen_opt_tlvs m).length = 16 := by rw [hob]; rfl
        refine ⟨{ label := m.label, pwStatus := m.pwStatus, flags := 0 ||| F_MAP_PW_STATUS }, ?_, rfl, ?_, ?_, fun _ => rfl⟩
        · rw [hlen, hob]
          have e1 := opt_step_label m.label 8 16 1
            (gen_pw_status_tlv m.pwStatus) {} [] hv hval
          have e2 := opt_step_pw_status m.pwStatus 0 15 2 []
            { label := m.label } [] hpws' (by decide)
          have e3 := opt_step_done MSG_TYPE_LABELMAPPING 14 3
            ([] : List Nat)
            { label := m.label, pwStatus := m.pwStatus,
              flags := 0 ||| F_MAP_PW_STATUS } []
          exact e1.trans (e2.trans e3)
        · rw [opt_flags_val m.flags hfl, if_pos hr, if_neg hp]
          rfl
        · intro h; exact absurd hr h
    · by_cases hp : m.flags &&& F_MAP_PW_STATUS = 0
      · -- label then request-id TLV
        have hob : gen_opt_tlvs m =
            gen_label_tlv m.label ++ gen_reqid_tlv m.requestid := by
          simp [gen_opt_tlvs, hl, hr, hp, h1]
        have hlen : (gen_opt_tlvs m).length = 16 := by rw [hob]; rfl
        refine ⟨{ label := m.label, reqid := m.requestid, flags := 0 ||| F_MAP_REQ_ID }, ?_, rfl, ?_, fun _ => rfl, ?_⟩
        · rw [hlen, hob]
          have e1 := opt_step_label m.label 8 16 1
            (gen_reqid_tlv m.requestid) {} [] hv hval
          have e2 := opt_step_reqid m.requestid 0 15 2 []
            { label := m.label } [] hreq'
          have e3 := opt_step_done MSG_TYPE_LABELMAPPING 14 3
            ([] : List Nat)
            { label := m.label, reqid := m.requestid,
              flags := 0 ||| F_MAP_REQ_ID } []
          exact e1.trans (e2.trans e3)
        · rw [opt_flags_val m.flags hfl, if_neg hr, if_pos hp]
          rfl
        · intro h; exact absurd hp h
      · -- label, request-id, pseudowire-status TLVs
        have hob : gen_opt_tlvs m = gen_label_tlv m.label ++
            (gen_reqid_tlv m.requestid ++
              gen_pw_status_tlv m.pwStatus) := by
          simp [gen_opt_tlvs, hl, hr, hp, h1]
        have hlen : (gen_opt_tlvs m).length = 24 := by rw [hob]; rfl
        refine ⟨{ label := m.label, reqid := m.requestid, pwStatus := m.pwStatus, flags := (0 ||| F_MAP_REQ_ID) ||| F_MAP_PW_STATUS }, ?_, rfl, ?_, fun _ => rfl, fun _ => rfl⟩
        · rw [hlen, hob]
          have e1 := opt_step_label m.label 16 24 1
            (gen_reqid_tlv m.requestid ++ gen_pw_status_tlv m.pwStatus)
            {} [] hv hval
          have e2 := opt_step_reqid m.requestid 8 23 2
            (gen_pw_status_tlv m.pwStatus) { label := m.label } [] hreq'
          have e3 := opt_step_pw_status m.pwStatus 0 22 3 []
            { label := m.label, reqid := m.requestid,
              flags := 0 ||| F_MAP_REQ_ID } [] hpws' (by decide)
          have e4 := opt_step_done MSG_TYPE_LABELMAPPING 21 4
            ([] : List Nat)
            { label := m.label, reqid := m.requestid,
              pwStatus := m.pwStatus,
              flags := (0 ||| F_MAP_REQ_ID) ||| F_MAP_PW_STATUS } []
          exact e1.trans (e2.trans (e3.trans e4))
        · rw [opt_flags_val m.flags hfl, if_neg hr, if_neg hp]
          rfl

/-- Round-trip of the FEC TLV for a Wildcard record. -/
lemma fec_rt_wcard (m : MapRec) (ht : m.type = MAP_TYPE_WILDCARD) :
    tlv_decode_fec_elm ((gen_fec_tlv m).drop TLV_HDR_SIZE)
        ((gen_fec_tlv m).length - TLV_HDR_SIZE) m.msgId =
      .ok (1, { type := MAP_TYPE_WILDCARD, msgId := m.msgId }) := by
  have hgen : gen_fec_tlv m =
      be16 TLV_TYPE_FEC ++ be16 1 ++ [MAP_TYPE_WILDCARD] := by
    simp only [gen_fec_tlv]
    rw [if_pos ht, ht]
  rw [hgen]
  rfl

/-- Round-trip of the FEC TLV for an IPv4 Prefix record whose prefix
bytes are already masked to the prefix length. -/
lemma fec_rt_pfx4 (m : MapRec) (ht : m.type = MAP_TYPE_PREFIX)
    (haf : m.pfxAf = AF_INET) (hpl : m.pfxLen ≤ IPV4_MAX_BITLEN)
    (hplen : m.pfx.length = PREFIX_SIZE m.pfxLen)
    (hmask : applyMask m.pfxLen m.pfx = m.pfx) :
    tlv_decode_fec_elm ((gen_fec_tlv m).drop TLV_HDR_SIZE)
        ((gen_fec_tlv m).length - TLV_HDR_SIZE) m.msgId =
      .ok (4 + PREFIX_SIZE m.pfxLen,
        { type := MAP_TYPE_PREFIX, msgId := m.msgId, pfxAf := AF_INET,
          pfxLen := m.pfxLen, pfx := m.pfx }) := by
  have hgen : gen_fec_tlv m =
      be16 TLV_TYPE_FEC ++ be16 (1 + 2 + 1 + PREFIX_SIZE m.pfxLen) ++
        [MAP_TYPE_PREFIX] ++ be16 1 ++ [m.pfxLen] ++
        padTake m.pfx (PREFIX_SIZE m.pfxLen) := by
    simp only [gen_fec_tlv]
    rw [if_neg (by rw [ht]; decide), if_pos ht, ht, haf]
    rfl
  have hlen4 : (gen_fec_tlv m).length - TLV_HDR_SIZE =
      4 + PREFIX_SIZE m.pfxLen := by
    rw [hgen]
    simp only [be16, List.length_append, List.length_cons,
      List.length_nil, padTake_length, TLV_HDR_SIZE]
    omega
  have hdrop : (gen_fec_tlv m).drop TLV_HDR_SIZE =
      2 :: 0 :: 1 :: m.pfxLen :: padTake m.pfx (PREFIX_SIZE m.pfxLen) := by
    rw [hgen]
    rfl
  rw [hdrop, hlen4]
  simp only [tlv_decode_fec_elm]
  rw [show (2 :: 0 :: 1 :: m.pfxLen ::
    padTake m.pfx (PREFIX_SIZE m.pfxLen)).getD 0 0 = MAP_TYPE_PREFIX
    from rfl]
  rw [if_neg (by decide), if_pos (show MAP_TYPE_PREFIX = MAP_TYPE_PREFIX
    from rfl)]
  simp only [tlv_decode_fec_pfx]
  rw [if_neg (by simp only [FEC_ELM_PREFIX_MIN_LEN]; omega)]
  rw [show be16at (2 :: 0 :: 1 :: m.pfxLen ::
    padTake m.pfx (PREFIX_SIZE m.pfxLen)) 1 = 1 from by
    simp [be16at, List.getD]]
  rw [if_pos (show (1 : Nat) = AF_IPV4 ∨ (1 : Nat) = AF_IPV6 from
    Or.inl rfl)]
  rw [if_pos (show (1 : Nat) = AF_IPV4 from rfl)]
  rw [show (2 :: 0 :: 1 :: m.pfxLen ::
    padTake m.pfx (PREFIX_SIZE m.pfxLen)).getD 3 0 = m.pfxLen from rfl]
  rw [if_neg (by
    rintro (⟨-, hgt⟩ | ⟨hbad, -⟩)
    · exact absurd hgt (not_lt.mpr hpl)
    · exact absurd hbad (by decide))]
  rw [if_neg (by omega)]
  rw [show List.drop 4 (2 :: 0 :: 1 :: m.pfxLen ::
    padTake m.pfx (PREFIX_SIZE m.pfxLen)) =
    padTake m.pfx (PREFIX_SIZE m.pfxLen) from rfl]
  rw [padTake_of_length (padTake m.pfx (PREFIX_SIZE m.pfxLen))
    (PREFIX_SIZE m.pfxLen) (padTake_length m.pfx (PREFIX_SIZE m.pfxLen))]
  rw [padTake_of_length m.pfx (PREFIX_SIZE m.pfxLen) hplen]
  rw [hmask]

/-- Round-trip of the FEC TLV for an IPv6 Prefix record whose prefix
bytes are already masked to the prefix length. -/
lemma fec_rt_pfx6 (m : MapRec) (ht : m.type = MAP_TYPE_PREFIX)
    (haf : m.pfxAf = AF_INET6) (hpl : m.pfxLen ≤ IPV6_MAX_BITLEN)
    (hplen : m.pfx.length = PREFIX_SIZE m.pfxLen)
    (hmask : applyMask m.pfxLen m.pfx = m.pfx) :
    tlv_decode_fec_elm ((gen_fec_tlv m).drop TLV_HDR_SIZE)
        ((gen_fec_tlv m).length - TLV_HDR_SIZE) m.msgId =
      .ok (4 + PREFIX_SIZE m.pfxLen,
        { type := MAP_TYPE_PREFIX, msgId := m.msgId, pfxAf := AF_INET6,
          pfxLen := m.pfxLen, pfx := m.pfx }) := by
  have hgen : gen_fec_tlv m =
      be16 TLV_TYPE_FEC ++ be16 (1 + 2 + 1 + PREFIX_SIZE m.pfxLen) ++
        [MAP_TYPE_PREFIX] ++ be16 2 ++ [m.pfxLen] ++
        padTake m.pfx (PREFIX_SIZE m.pfxLen) := by
    simp only [gen_fec_tlv]
    rw [if_neg (by rw [ht]; decide), if_pos ht, ht, haf]
    rfl
  have hlen4 : (gen_fec_tlv m).length - TLV_HDR_SIZE =
      4 + PREFIX_SIZE m.pfxLen := by
    rw [hgen]
    simp only [be16, List.length_append, List.length_cons,
      List.length_nil, padTake_length, TLV_HDR_SIZE]
    omega
  have hdrop : (gen_fec_tlv m).drop TLV_HDR_SIZE =
      2 :: 0 :: 2 :: m.pfxLen :: padTake m.pfx (PREFIX_SIZE m.pfxLen) := by
    rw [hgen]
    rfl
  rw [hdrop, hlen4]
  simp only [tlv_decode_fec_elm]
  rw [show (2 :: 0 :: 2 :: m.pfxLen ::
    padTake m.pfx (PREFIX_SIZE m.pfxLen)).getD 0 0 = MAP_TYPE_PREFIX
    from rfl]
  rw [if_neg (by decide), if_pos (show MAP_TYPE_PREFIX = MAP_TYPE_PREFIX
    from rfl)]
  simp only [tlv_decode_fec_pfx]
  rw [if_neg (by simp only [FEC_ELM_PREFIX_MIN_LEN]; omega)]
  rw [show be16at (2 :: 0 :: 2 :: m.pfxLen ::
    padTake m.pfx (PREFIX_SIZE m.pfxLen)) 1 = 2 from by
    simp [be16at, List.getD]]
  rw [if_pos (show (2 : Nat) = AF_IPV4 ∨ (2 : Nat) = AF_IPV6 from
    Or.inr rfl)]
  rw [if_neg (show ¬((2 : Nat) = AF_IPV4) from by decide)]
  rw [show (2 :: 0 :: 2 :: m.pfxLen ::
    padTake m.pfx (PREFIX_SIZE m.pfxLen)).getD 3 0 = m.pfxLen from rfl]
  rw [if_neg (by
    rintro (⟨hbad, -⟩ | ⟨-, hgt⟩)
    · exact absurd hbad (by decide)
    · exact absurd hgt (not_lt.mpr hpl))]
  rw [if_neg (by omega)]
  rw [show List.drop 4 (2 :: 0 :: 2 :: m.pfxLen ::
    padTake m.pfx (PREFIX_SIZE m.pfxLen)) =
    padTake m.pfx (PREFIX_SIZE m.pfxLen) from rfl]
  rw [padTake_of_length (padTake m.pfx (PREFIX_SIZE m.pfxLen))
    (PREFIX_SIZE m.pfxLen) (padTake_length m.pfx (PREFIX_SIZE m.pfxLen))]
  rw [padTake_of_length m.pfx (PREFIX_SIZE m.pfxLen) hplen]
  rw [hmask]

/-- Round-trip of the FEC TLV for a Typed Wildcard record with inner
type Prefix. -/
lemma fec_rt_tw_pfx (m : MapRec) (ht : m.type = MAP_TYPE_TYPED_WCARD)
    (htt : m.twcardType = MAP_TYPE_PREFIX)
    (haf : m.twcardAf = AF_INET ∨ m.twcardAf = AF_INET6) :
    tlv_decode_fec_elm ((gen_fec_tlv m).drop TLV_HDR_SIZE)
        ((gen_fec_tlv m).length - TLV_HDR_SIZE) m.msgId =
      .ok (5, { type := MAP_TYPE_TYPED_WCARD, msgId := m.msgId,
                twcardType := MAP_TYPE_PREFIX,
                twcardAf := m.twcardAf }) := by
  rcases haf with h | h
  · have hgen : gen_fec_tlv m = be16 TLV_TYPE_FEC ++
        be16 (FEC_ELM_TWCARD_MIN_LEN + 2) ++
        [MAP_TYPE_TYPED_WCARD, MAP_TYPE_PREFIX, 2] ++ be16 1 := by
      simp only [gen_fec_tlv]
      rw [if_neg (by rw [ht]; decide), if_neg (by rw [ht]; decide),
        if_neg (by rw [ht]; decide), if_pos ht, ht, htt,
        if_pos (show MAP_TYPE_PREFIX = MAP_TYPE_PREFIX from rfl), h]
      rfl
    rw [hgen, h]
    rfl
  · have hgen : gen_fec_tlv m = be16 TLV_TYPE_FEC ++
        be16 (FEC_ELM_TWCARD_MIN_LEN + 2) ++
        [MAP_TYPE_TYPED_WCARD, MAP_TYPE_PREFIX, 2] ++ be16 2 := by
      simp only [gen_fec_tlv]
      rw [if_neg (by rw [ht]; decide), if_neg (by rw [ht]; decide),
        if_neg (by rw [ht]; decide), if_pos ht, ht, htt,
        if_pos (show MAP_TYPE_PREFIX = MAP_TYPE_PREFIX from rfl), h]
      rfl
    rw [hgen, h]
    rfl

/-- Round-trip of the FEC TLV for a Typed Wildcard record with inner
type PseudowireID. -/
lemma fec_rt_tw_pwid (m : MapRec) (ht : m.type = MAP_TYPE_TYPED_WCARD)
    (htt : m.twcardType = MAP_TYPE_PWID)
    (hlt : m.twcardPwType < 2 ^ 15) :
    tlv_decode_fec_elm ((gen_fec_tlv m).drop TLV_HDR_SIZE)
        ((gen_fec_tlv m).length - TLV_HDR_SIZE) m.msgId =
      .ok (5, { type := MAP_TYPE_TYPED_WCARD, msgId := m.msgId,
                twcardType := MAP_TYPE_PWID,
                twcardPwType := m.twcardPwType }) := by
  have hgen : gen_fec_tlv m = be16 TLV_TYPE_FEC ++
      be16 (FEC_ELM_TWCARD_MIN_LEN + 2) ++
      [MAP_TYPE_TYPED_WCARD, MAP_TYPE_PWID, 2] ++
      be16 m.twcardPwType := by
    simp only [gen_fec_tlv]
    rw [if_neg (by rw [ht]; decide), if_neg (by rw [ht]; decide),
      if_neg (by rw [ht]; decide), if_pos ht, ht, htt,
      if_neg (by decide),
      if_pos (show MAP_TYPE_PWID = MAP_TYPE_PWID from rfl)]
  have hdrop : (gen_fec_tlv m).drop TLV_HDR_SIZE =
      5 :: 128 :: 2 :: be16 m.twcardPwType := by
    rw [hgen]
    rfl
  have hlen5 : (gen_fec_tlv m).length - TLV_HDR_SIZE = 5 := by
    rw [hgen]
    rfl
  rw [hdrop, hlen5]
  simp only [tlv_decode_fec_elm]
  rw [show (5 :: 128 :: 2 :: be16 m.twcardPwType).getD 0 0 =
    MAP_TYPE_TYPED_WCARD from rfl]
  rw [if_neg (by decide), if_neg (by decide), if_neg (by decide),
    if_pos (show MAP_TYPE_TYPED_WCARD = MAP_TYPE_TYPED_WCARD from rfl)]
  simp only [tlv_decode_fec_twcard]
  rw [if_neg (by decide)]
  rw [show (5 :: 128 :: 2 :: be16 m.twcardPwType).getD 1 0 =
    MAP_TYPE_PWID from rfl]
  rw [show (5 :: 128 :: 2 :: be16 m.twcardPwType).getD 2 0 = 2 from rfl]
  rw [if_neg (by decide), if_neg (by decide),
    if_pos (show MAP_TYPE_PWID = MAP_TYPE_PWID from rfl),
    if_neg (by decide)]
  rw [show be16at (5 :: 128 :: 2 :: be16 m.twcardPwType) 3 =
    m.twcardPwType from by simp [be16at, be16, List.getD]; omega]
  rw [pwtype_mask_self m.twcardPwType (by omega)]

/-- Round-trip of the FEC TLV for a PWID record: the pseudowire type
(with the control-word bit folded in and back out), group id, and the
optional pw-id and interface-MTU are recovered, with the FEC-owned flag
bits; the sender only emits an interface-MTU sub-TLV alongside a pw-id,
as the decoder reads the first four pseudowire-info bytes as the
pw-id. -/
lemma fec_rt_pwid (m : MapRec) (ht : m.type = MAP_TYPE_PWID)
    (hfl : m.flags < 64) (hpt : m.pwType < 2 ^ 15)
    (hg : m.groupId < 2 ^ 32) (hw : m.pwid < 2 ^ 32)
    (hi : m.ifmtu < 2 ^ 16)
    (h2 : m.flags &&& F_MAP_PW_IFMTU ≠ 0 → m.flags &&& F_MAP_PW_ID ≠ 0) :
    ∃ n, tlv_decode_fec_elm ((gen_fec_tlv m).drop TLV_HDR_SIZE)
        ((gen_fec_tlv m).length - TLV_HDR_SIZE) m.msgId =
      .ok (n, { type := MAP_TYPE_PWID, msgId := m.msgId,
                pwType := m.pwType, groupId := m.groupId,
                pwid := if m.flags &&& F_MAP_PW_ID ≠ 0 then m.pwid else 0,
                ifmtu :=
                  if m.flags &&& F_MAP_PW_IFMTU ≠ 0 then m.ifmtu else 0,
                flags := m.flags &&& 28 }) := by
  by_cases hid : m.flags &&& F_MAP_PW_ID = 0
  · -- no pw-id, hence no interface MTU either
    have hif : m.flags &&& F_MAP_PW_IFMTU = 0 := by
      by_contra hh
      exact (h2 hh) hid
    by_cases hcw : m.flags &&& F_MAP_PW_CWORD = 0
    · refine ⟨8, ?_⟩
      rw [if_neg (not_not_intro hid), if_neg (not_not_intro hif),
        (pw28_none m.flags hfl).1 hcw hid hif]
      have hkey : (gen_fec_tlv m).drop TLV_HDR_SIZE =
          128 :: (be16 m.pwType ++ (0 :: be32 m.groupId)) ∧
          (gen_fec_tlv m).length - TLV_HDR_SIZE = 8 := by
        simp only [gen_fec_tlv]
        rw [if_neg (by rw [ht]; decide), if_neg (by rw [ht]; decide),
          if_pos ht, ht, if_neg (not_not_intro hid),
          if_neg (not_not_intro hid), if_neg (not_not_intro hif),
          if_neg (not_not_intro hif), if_neg (not_not_intro hcw)]
        exact ⟨rfl, rfl⟩
      obtain ⟨hdrop, hlen⟩ := hkey
      rw [hdrop, hlen]
      simp only [tlv_decode_fec_elm]
      rw [show (128 :: (be16 m.pwType ++ (0 :: be32 m.groupId))).getD 0 0 =
        MAP_TYPE_PWID from rfl]
      rw [if_neg (by decide), if_neg (by decide),
        if_pos (show MAP_TYPE_PWID = MAP_TYPE_PWID from rfl)]
      simp only [tlv_decode_fec_pwid, CONTROL_WORD_FLAG]
      rw [if_neg (by decide)]
      rw [show be16at (128 :: (be16 m.pwType ++ (0 :: be32 m.groupId))) 1 =
        m.pwType from by simp [be16at, be16, List.getD]; omega]
      rw [if_neg (not_not_intro (pwtype_nocword m.pwType (by omega)))]
      rw [show (128 :: (be16 m.pwType ++ (0 :: be32 m.groupId))).getD 3 0 =
        0 from rfl]
      rw [if_neg (by decide)]
      rw [show be32at (128 :: (be16 m.pwType ++ (0 :: be32 m.groupId))) 4 =
        m.groupId from by simp [be32at, be16, be32, List.getD]; omega]
      rw [if_pos (show (0 : Nat) = 0 from rfl)]
      try rfl
    · refine ⟨8, ?_⟩
      have hpwt : m.pwType ||| 32768 < 65536 :=
        pwtype_lor_lt m.pwType (by omega)
      rw [if_neg (not_not_intro hid), if_neg (not_not_intro hif),
        (pw28_none m.flags hfl).2 hcw hid hif]
      have hkey : (gen_fec_tlv m).drop TLV_HDR_SIZE =
          128 :: (be16 (m.pwType ||| 32768) ++ (0 :: be32 m.groupId)) ∧
          (gen_fec_tlv m).length - TLV_HDR_SIZE = 8 := by
        simp only [gen_fec_tlv]
        rw [if_neg (by rw [ht]; decide), if_neg (by rw [ht]; decide),
          if_pos ht, ht, if_neg (not_not_intro hid),
          if_neg (not_not_intro hid), if_neg (not_not_intro hif),
          if_neg (not_not_intro hif), if_pos hcw]
        exact ⟨rfl, rfl⟩
      obtain ⟨hdrop, hlen⟩ := hkey
      rw [hdrop, hlen]
      simp only [tlv_decode_fec_elm]
      rw [show (128 :: (be16 (m.pwType ||| 32768) ++
        (0 :: be32 m.groupId))).getD 0 0 = MAP_TYPE_PWID from rfl]
      rw [if_neg (by decide), if_neg (by decide),
        if_pos (show MAP_TYPE_PWID = MAP_TYPE_PWID from rfl)]
      simp only [tlv_decode_fec_pwid, CONTROL_WORD_FLAG]
      rw [if_neg (by decide)]
      rw [show be16at (128 :: (be16 (m.pwType ||| 32768) ++
        (0 :: be32 m.groupId))) 1 = m.pwType ||| 32768 from by
        simp [be16at, be16, List.getD]; omega]
      rw [if_pos (pwtype_lor_cword m.pwType (by omega))]
      rw [pwtype_lor_mask m.pwType (by omega)]
      rw [show (128 :: (be16 (m.pwType ||| 32768) ++
        (0 :: be32 m.groupId))).getD 3 0 = 0 from rfl]
      rw [if_neg (by decide)]
      rw [show be32at (128 :: (be16 (m.pwType ||| 32768) ++
        (0 :: be32 m.groupId))) 4 = m.groupId from by
        simp [be32at, be16, be32, List.getD]; omega]
      rw [if_pos (show (0 : Nat) = 0 from rfl)]
      try rfl
  · by_cases hif : m.flags &&& F_MAP_PW_IFMTU = 0
    · -- pw-id, no interface MTU
      by_cases hcw : m.flags &&& F_MAP_PW_CWORD = 0
      · refine ⟨12, ?_⟩
        rw [if_pos hid, if_neg (not_not_intro hif),
          (pw28_id m.flags hfl).1 hcw hid hif]
        have hkey : (gen_fec_tlv m).drop TLV_HDR_SIZE =
            128 :: (be16 m.pwType ++
              (4 :: (be32 m.groupId ++ be32 m.pwid))) ∧
            (gen_fec_tlv m).length - TLV_HDR_SIZE = 12 := by
          simp only [gen_fec_tlv]
          rw [if_neg (by rw [ht]; decide), if_neg (by rw [ht]; decide),
            if_pos ht, ht, if_pos hid, if_pos hid,
            if_neg (not_not_intro hif), if_neg (not_not_intro hif),
            if_neg (not_not_intro hcw)]
          exact ⟨rfl, rfl⟩
        obtain ⟨hdrop, hlen⟩ := hkey
        rw [hdrop, hlen]
        simp only [tlv_decode_fec_elm]
        rw [show (128 :: (be16 m.pwType ++
          (4 :: (be32 m.groupId ++ be32 m.pwid)))).getD 0 0 =
          MAP_TYPE_PWID from rfl]
        rw [if_neg (by decide), if_neg (by decide),
          if_pos (show MAP_TYPE_PWID = MAP_TYPE_PWID from rfl)]
        simp only [tlv_decode_fec_pwid, CONTROL_WORD_FLAG]
        rw [if_neg (by decide)]
        rw [show be16at (128 :: (be16 m.pwType ++
          (4 :: (be32 m.groupId ++ be32 m.pwid)))) 1 = m.pwType from by
          simp [be16at, be16, List.getD]; omega]
        rw [if_neg (not_not_intro (pwtype_nocword m.pwType (by omega)))]
        rw [show (128 :: (be16 m.pwType ++
          (4 :: (be32 m.groupId ++ be32 m.pwid)))).getD 3 0 = 4 from rfl]
        rw [if_neg (by decide)]
        rw [show be32at (128 :: (be16 m.pwType ++
          (4 :: (be32 m.groupId ++ be32 m.pwid)))) 4 = m.groupId from by
          simp [be32at, be16, be32, List.getD]; omega]
        rw [if_neg (by decide), if_neg (by decide)]
        rw [show be32at (128 :: (be16 m.pwType ++
          (4 :: (be32 m.groupId ++ be32 m.pwid)))) 8 = m.pwid from by
          simp [be32at, be16, be32, List.getD]; omega]
        rw [show (4 - 4 + 1 : Nat) = 0 + 1 from rfl,
          show (4 - 4 : Nat) = 0 from rfl]
        exact subtlvLoop_zero _ _ _ _
      · refine ⟨12, ?_⟩
        have hpwt : m.pwType ||| 32768 < 65536 :=
          pwtype_lor_lt m.pwType (by omega)
        rw [if_pos hid, if_neg (not_not_intro hif),
          (pw28_id m.flags hfl).2 hcw hid hif]
        have hkey : (gen_fec_tlv m).drop TLV_HDR_SIZE =
            128 :: (be16 (m.pwType ||| 32768) ++
              (4 :: (be32 m.groupId ++ be32 m.pwid))) ∧
            (gen_fec_tlv m).length - TLV_HDR_SIZE = 12 := by
          simp only [gen_fec_tlv]
          rw [if_neg (by rw [ht]; decide), if_neg (by rw [ht]; decide),
            if_pos ht, ht, if_pos hid, if_pos hid,
            if_neg (not_not_intro hif), if_neg (not_not_intro hif),
            if_pos hcw]
          exact ⟨rfl, rfl⟩
        obtain ⟨hdrop, hlen⟩ := hkey
        rw [hdrop, hlen]
        simp only [tlv_decode_fec_elm]
        rw [show (128 :: (be16 (m.pwType ||| 32768) ++
          (4 :: (be32 m.groupId ++ be32 m.pwid)))).getD 0 0 =
          MAP_TYPE_PWID from rfl]
        rw [if_neg (by decide), if_neg (by decide),
          if_pos (show MAP_TYPE_PWID = MAP_TYPE_PWID from rfl)]
        simp only [tlv_decode_fec_pwid, CONTROL_WORD_FLAG]
        rw [if_neg (by decide)]
        rw [show be16at (128 :: (be16 (m.pwType ||| 32768) ++
          (4 :: (be32 m.groupId ++ be32 m.pwid)))) 1 =
          m.pwType ||| 32768 from by
          simp [be16at, be16, List.getD]; omega]
        rw [if_pos (pwtype_lor_cword m.pwType (by omega))]
        rw [pwtype_lor_mask m.pwType (by omega)]
        rw [show (128 :: (be16 (m.pwType ||| 32768) ++
          (4 :: (be32 m.groupId ++ be32 m.pwid)))).getD 3 0 = 4 from rfl]
        rw [if_neg (by decide)]
        rw [show be32at (128 :: (be16 (m.pwType ||| 32768) ++
          (4 :: (be32 m.groupId ++ be32 m.pwid)))) 4 = m.groupId from by
          simp [be32at, be16, be32, List.getD]; omega]
        rw [if_neg (by decide), if_neg (by decide)]
        rw [show be32at (128 :: (be16 (m.pwType ||| 32768) ++
          (4 :: (be32 m.groupId ++ be32 m.pwid)))) 8 = m.pwid from by
          simp [be32at, be16, be32, List.getD]; omega]
        rw [show (4 - 4 + 1 : Nat) = 0 + 1 from rfl,
          show (4 - 4 : Nat) = 0 from rfl]
        exact subtlvLoop_zero _ _ _ _
    · -- pw-id and interface MTU
      by_cases hcw : m.flags &&& F_MAP_PW_CWORD = 0
      · refine ⟨16, ?_⟩
        rw [if_pos hid, if_pos hif,
          (pw28_id_mtu m.flags hfl).1 hcw hid hif]
        have hkey : (gen_fec_tlv m).drop TLV_HDR_SIZE =
            128 :: (be16 m.pwType ++ (8 :: (be32 m.groupId ++
              (be32 m.pwid ++ (1 :: 4 :: be16 m.ifmtu))))) ∧
            (gen_fec_tlv m).length - TLV_HDR_SIZE = 16 := by
          simp only [gen_fec_tlv]
          rw [if_neg (by rw [ht]; decide), if_neg (by rw [ht]; decide),
            if_pos ht, ht, if_pos hid, if_pos hid, if_pos hif,
            if_pos hif, if_neg (not_not_intro hcw)]
          exact ⟨rfl, rfl⟩
        obtain ⟨hdrop, hlen⟩ := hkey
        rw [hdrop, hlen]
        simp only [tlv_decode_fec_elm]
        rw [show (128 :: (be16 m.pwType ++ (8 :: (be32 m.groupId ++
          (be32 m.pwid ++ (1 :: 4 :: be16 m.ifmtu)))))).getD 0 0 =
          MAP_TYPE_PWID from rfl]
        rw [if_neg (by decide), if_neg (by decide),
          if_pos (show MAP_TYPE_PWID = MAP_TYPE_PWID from rfl)]
        simp only [tlv_decode_fec_pwid, CONTROL_WORD_FLAG]
        rw [if_neg (by decide)]
        rw [show be16at (128 :: (be16 m.pwType ++ (8 :: (be32 m.groupId ++
          (be32 m.pwid ++ (1 :: 4 :: be16 m.ifmtu)))))) 1 = m.pwType
          from by simp [be16at, be16, List.getD]; omega]
        rw [if_neg (not_not_intro (pwtype_nocword m.pwType (by omega)))]
        rw [show (128 :: (be16 m.pwType ++ (8 :: (be32 m.groupId ++
          (be32 m.pwid ++ (1 :: 4 :: be16 m.ifmtu)))))).getD 3 0 = 8
          from rfl]
        rw [if_neg (by decide)]
        rw [show be32at (128 :: (be16 m.pwType ++ (8 :: (be32 m.groupId ++
          (be32 m.pwid ++ (1 :: 4 :: be16 m.ifmtu)))))) 4 = m.groupId
          from by simp [be32at, be16, be32, List.getD]; omega]
        rw [if_neg (by decide), if_neg (by decide)]
        rw [show be32at (128 :: (be16 m.pwType ++ (8 :: (be32 m.groupId ++
          (be32 m.pwid ++ (1 :: 4 :: be16 m.ifmtu)))))) 8 = m.pwid
          from by simp [be32at, be16, be32, List.getD]; omega]
        rw [show (8 - 4 + 1 : Nat) = 4 + 1 from rfl,
          show (8 - 4 : Nat) = 4 from rfl]
        rw [subtlvLoop_one_ifmtu (128 :: (be16 m.pwType ++
          (8 :: (be32 m.groupId ++ (be32 m.pwid ++
          (1 :: 4 :: be16 m.ifmtu)))))) 4 12 _ rfl rfl]
        rw [show be16at (128 :: (be16 m.pwType ++ (8 :: (be32 m.groupId ++
          (be32 m.pwid ++ (1 :: 4 :: be16 m.ifmtu))))))
          (12 + SUBTLV_HDR_SIZE) = m.ifmtu from by
          simp [be16at, be16, be32, List.getD, SUBTLV_HDR_SIZE]; omega]
        exact subtlvLoop_zero _ 3 _ _
      · refine ⟨16, ?_⟩
        have hpwt : m.pwType ||| 32768 < 65536 :=
          pwtype_lor_lt m.pwType (by omega)
        rw [if_pos hid, if_pos hif,
          (pw28_id_mtu m.flags hfl).2 hcw hid hif]
        have hkey : (gen_fec_tlv m).drop TLV_HDR_SIZE =
            128 :: (be16 (m.pwType ||| 32768) ++ (8 :: (be32 m.groupId ++
              (be32 m.pwid ++ (1 :: 4 :: be16 m.ifmtu))))) ∧
            (gen_fec_tlv m).length - TLV_HDR_SIZE = 16 := by
          simp only [gen_fec_tlv]
          rw [if_neg (by rw [ht]; decide), if_neg (by rw [ht]; decide),
            if_pos ht, ht, if_pos hid, if_pos hid, if_pos hif,
            if_pos hif, if_pos hcw]
          exact ⟨rfl, rfl⟩
        obtain ⟨hdrop, hlen⟩ := hkey
        rw [hdrop, hlen]
        simp only [tlv_decode_fec_elm]
        rw [show (128 :: (be16 (m.pwType ||| 32768) ++
          (8 :: (be32 m.groupId ++ (be32 m.pwid ++
          (1 :: 4 :: be16 m.ifmtu)))))).getD 0 0 = MAP_TYPE_PWID
          from rfl]
        rw [if_neg (by decide), if_neg (by decide),
          if_pos (show MAP_TYPE_PWID = MAP_TYPE_PWID from rfl)]
        simp only [tlv_decode_fec_pwid, CONTROL_WORD_FLAG]
        rw [if_neg (by decide)]
        rw [show be16at (128 :: (be16 (m.pwType ||| 32768) ++
          (8 :: (be32 m.groupId ++ (be32 m.pwid ++
          (1 :: 4 :: be16 m.ifmtu)))))) 1 = m.pwType ||| 32768 from by
          simp [be16at, be16, List.getD]; omega]
        rw [if_pos (pwtype_lor_cword m.pwType (by omega))]
        rw [pwtype_lor_mask m.pwType (by omega)]
        rw [show (128 :: (be16 (m.pwType ||| 32768) ++
          (8 :: (be32 m.groupId ++ (be32 m.pwid ++
          (1 :: 4 :: be16 m.ifmtu)))))).getD 3 0 = 8 from rfl]
        rw [if_neg (by decide)]
        rw [show be32at (128 :: (be16 (m.pwType ||| 32768) ++
          (8 :: (be32 m.groupId ++ (be32 m.pwid ++
          (1 :: 4 :: be16 m.ifmtu)))))) 4 = m.groupId from by
          simp [be32at, be16, be32, List.getD]; omega]
        rw [if_neg (by decide), if_neg (by decide)]
        rw [show be32at (128 :: (be16 (m.pwType ||| 32768) ++
          (8 :: (be32 m.groupId ++ (be32 m.pwid ++
          (1 :: 4 :: be16 m.ifmtu)))))) 8 = m.pwid from by
          simp [be32at, be16, be32, List.getD]; omega]
        rw [show (8 - 4 + 1 : Nat) = 4 + 1 from rfl,
          show (8 - 4 : Nat) = 4 from rfl]
        rw [subtlvLoop_one_ifmtu (128 :: (be16 (m.pwType ||| 32768) ++
          (8 :: (be32 m.groupId ++ (be32 m.pwid ++
          (1 :: 4 :: be16 m.ifmtu)))))) 4 12 _ rfl rfl]
        rw [show be16at (128 :: (be16 (m.pwType ||| 32768) ++
          (8 :: (be32 m.groupId ++ (be32 m.pwid ++
          (1 :: 4 :: be16 m.ifmtu)))))) (12 + SUBTLV_HDR_SIZE) = m.ifmtu
          from by
          simp [be16at, be16, be32, List.getD, SUBTLV_HDR_SIZE]; omega]
        exact subtlvLoop_zero _ 3 _ _

/-- A well-formed record's flag word has the FEC-owned bits clear when
the union mask (control word, pw-id, interface MTU) is clear. -/
lemma mask28_eq (f : Nat)
    (hb : f &&& (F_MAP_PW_CWORD ||| F_MAP_PW_ID ||| F_MAP_PW_IFMTU) = 0) :
    f &&& 28 = 0 := by
  rw [show (28 : Nat) =
    F_MAP_PW_CWORD ||| F_MAP_PW_ID ||| F_MAP_PW_IFMTU from by decide]
  exact hb

/-- Round-trip of the FEC TLV for every well-formed record: the decoder
recovers the FEC variant selector, its payload and the FEC-owned flag
bits. -/
lemma fec_roundtrip (m : MapRec) (hwf : WfMap m)
    (h2 : m.flags &&& F_MAP_PW_IFMTU ≠ 0 → m.flags &&& F_MAP_PW_ID ≠ 0) :
    ∃ n m1, tlv_decode_fec_elm ((gen_fec_tlv m).drop TLV_HDR_SIZE)
        ((gen_fec_tlv m).length - TLV_HDR_SIZE) m.msgId = .ok (n, m1) ∧
      m1.type = m.type ∧ m1.flags = m.flags &&& 28 ∧
      (m.type = MAP_TYPE_PREFIX →
        m1.pfxAf = m.pfxAf ∧ m1.pfxLen = m.pfxLen ∧ m1.pfx = m.pfx) ∧
      (m.type = MAP_TYPE_PWID →
        m1.pwType = m.pwType ∧ m1.groupId = m.groupId ∧
        (m.flags &&& F_MAP_PW_ID ≠ 0 → m1.pwid = m.pwid) ∧
        (m.flags &&& F_MAP_PW_IFMTU ≠ 0 → m1.ifmtu = m.ifmtu)) ∧
      (m.type = MAP_TYPE_TYPED_WCARD →
        m1.twcardType = m.twcardType ∧
        (m.twcardType = MAP_TYPE_PREFIX → m1.twcardAf = m.twcardAf) ∧
        (m.twcardType = MAP_TYPE_PWID →
          m1.twcardPwType = m.twcardPwType)) := by
  obtain ⟨-, -, hfl, -, harm⟩ := hwf
  rcases harm with ⟨ht, hbits⟩ | ⟨ht, hbits, haf, hplen, hmask⟩ |
    ⟨ht, hpt, hg, hw, hi⟩ | ⟨ht, hbits, hinner⟩
  · refine ⟨1, _, fec_rt_wcard m ht, ht.symm, ?_, ?_, ?_, ?_⟩
    · exact (mask28_eq m.flags hbits).symm
    · intro h; exact absurd (ht.symm.trans h) (by decide)
    · intro h; exact absurd (ht.symm.trans h) (by decide)
    · intro h; exact absurd (ht.symm.trans h) (by decide)
  · rcases haf with ⟨ha, hpl⟩ | ⟨ha, hpl⟩
    · refine ⟨4 + PREFIX_SIZE m.pfxLen, _,
        fec_rt_pfx4 m ht ha hpl hplen hmask, ht.symm, ?_, ?_, ?_, ?_⟩
      · exact (mask28_eq m.flags hbits).symm
      · exact fun _ => ⟨ha.symm, rfl, rfl⟩
      · intro h; exact absurd (ht.symm.trans h) (by decide)
      · intro h; exact absurd (ht.symm.trans h) (by decide)
    · refine ⟨4 + PREFIX_SIZE m.pfxLen, _,
        fec_rt_pfx6 m ht ha hpl hplen hmask, ht.symm, ?_, ?_, ?_, ?_⟩
      · exact (mask28_eq m.flags hbits).symm
      · exact fun _ => ⟨ha.symm, rfl, rfl⟩
      · intro h; exact absurd (ht.symm.trans h) (by decide)
      · intro h; exact absurd (ht.symm.trans h) (by decide)
  · obtain ⟨n, hdec⟩ := fec_rt_pwid m ht hfl hpt hg hw hi h2
    refine ⟨n, _, hdec, ht.symm, rfl, ?_, ?_, ?_⟩
    · intro h; exact absurd (ht.symm.trans h) (by decide)
    · refine fun _ => ⟨rfl, rfl, ?_, ?_⟩
      · intro hh
        show (if m.flags &&& F_MAP_PW_ID ≠ 0 then m.pwid else 0) = m.pwid
        rw [if_pos hh]
      · intro hh
        show (if m.flags &&& F_MAP_PW_IFMTU ≠ 0 then m.ifmtu else 0) =
          m.ifmtu
        rw [if_pos hh]
    · intro h; exact absurd (ht.symm.trans h) (by decide)
  · rcases hinner with ⟨htt, haf⟩ | ⟨htt, hplt⟩
    · refine ⟨5, _, fec_rt_tw_pfx m ht htt haf, ht.symm, ?_, ?_, ?_, ?_⟩
      · exact (mask28_eq m.flags hbits).symm
      · intro h; exact absurd (ht.symm.trans h) (by decide)
      · intro h; exact absurd (ht.symm.trans h) (by decide)
      · exact fun _ => ⟨htt.symm, fun _ => rfl,
          fun hh => absurd (htt.symm.trans hh) (by decide)⟩
    · refine ⟨5, _, fec_rt_tw_pwid m ht htt hplt, ht.symm, ?_, ?_, ?_,
        ?_⟩
      · exact (mask28_eq m.flags hbits).symm
      · intro h; exact absurd (ht.symm.trans h) (by decide)
      · intro h; exact absurd (ht.symm.trans h) (by decide)
      · exact fun _ => ⟨htt.symm,
          fun hh => absurd (htt.symm.trans hh) (by decide),
          fun _ => rfl⟩

/-- C1: the codec round-trip over the encoders and decoders of this
subsystem, for every well-formed record whose optional-TLV combination
survives the decoder's checks: the status flag must be clear (the
decoder ignores a Status TLV, losing the flag), an interface-MTU
requires a pw-id (the decoder reads the first four pseudowire-info
bytes as the pw-id), and a pw-status TLV with no label requires a
request id (the Request-ID TLV, type 0x0600, carries the 0x0200 bit
and precedes the pw-status TLV; without either, the Pseudowire Status
TLV, whose type 0x096A lacks that bit, is the first optional TLV and
trips the missing-message check). Under these restrictions decode of
the encoded bytes yields a record agreeing with the original in every
semantically significant field. -/
theorem C1_roundtrip (m : MapRec) (hwf : WfMap m)
    (h1 : m.flags &&& F_MAP_STATUS = 0)
    (h2 : m.flags &&& F_MAP_PW_IFMTU ≠ 0 → m.flags &&& F_MAP_PW_ID ≠ 0)
    (h3 : m.label = NO_LABEL → m.flags &&& F_MAP_PW_STATUS ≠ 0 →
      m.flags &&& F_MAP_REQ_ID ≠ 0) :
    ∃ m', codec_roundtrip m = some m' ∧ SigEq m' m := by
  obtain ⟨hreq, hpws, hfl, hlab, harm⟩ := hwf
  obtain ⟨n, m1, hfec, hty, hflags, hpfx, hpw, htw⟩ :=
    fec_roundtrip m ⟨hreq, hpws, hfl, hlab, harm⟩ h2
  obtain ⟨st, hopt, hstl, hstf, hstr, hstp⟩ :=
    opt_roundtrip m hreq hpws hfl hlab h1 h3
  obtain ⟨hpty, hpla, hpfl, hp4, hp5, hp6, hp7, hp8, hp9, hp10, hp11,
    hp12, hp13⟩ := dispatch_assemble_parts m1 st
  have hflagsEq : (dispatch_assemble m1 st).flags = m.flags := by
    rw [hpfl, hflags, hstf]
    exact flags_28_or_33 m.flags hfl h1
  refine ⟨dispatch_assemble m1 st, ?_, ?_, ?_, ?_, ?_, ?_, ?_⟩
  · simp only [codec_roundtrip]
    rw [hfec, hopt]
  · rw [hpty, hty]
  · rw [hpla, hstl]
  · exact hflagsEq
  · intro hptype
    rw [hpty, hty] at hptype
    obtain ⟨e1, e2, e3⟩ := hpfx hptype
    exact ⟨by rw [hp4, e1], by rw [hp5, e2], by rw [hp6, e3]⟩
  · intro hptype
    rw [hpty, hty] at hptype
    obtain ⟨e1, e2, e3, e4⟩ := hpw hptype
    refine ⟨by rw [hp7, e1], by rw [hp8, e2], ?_, ?_⟩
    · intro hflag
      rw [hflagsEq] at hflag
      rw [hp9]
      exact e3 hflag
    · intro hflag
      rw [hflagsEq] at hflag
      rw [hp10]
      exact e4 hflag
  · intro hptype
    rw [hpty, hty] at hptype
    obtain ⟨e1, e2, e3⟩ := htw hptype
    refine ⟨by rw [hp11, e1], ?_, ?_⟩
    · intro htt
      rw [hp11, e1] at htt
      rw [hp12]
      exact e2 htt
    · intro htt
      rw [hp11, e1] at htt
      rw [hp13]
      exact e3 htt

/-- Witness: the round-trip theorem applied to a concrete well-formed
PWID record with control word, pw-id, interface MTU, request id,
pw-status and a label — and to one with no label whose pw-status TLV
rides behind a Request-ID TLV. -/
theorem C1_roundtrip_witness :
    (WfMap wfPwidMap ∧ wfPwidMap.flags &&& F_MAP_STATUS = 0 ∧
      ∃ m', codec_roundtrip wfPwidMap = some m' ∧ SigEq m' wfPwidMap) ∧
    (WfMap pwsNoLabelMap ∧ pwsNoLabelMap.label = NO_LABEL ∧
      ∃ m', codec_roundtrip pwsNoLabelMap = some m' ∧
        SigEq m' pwsNoLabelMap) :=
  ⟨⟨by unfold WfMap LabelValid; decide, by decide,
    C1_roundtrip wfPwidMap (by unfold WfMap LabelValid; decide)
      (by decide) (by decide) (by decide)⟩,
   ⟨by unfold WfMap LabelValid; decide, by decide,
    C1_roundtrip pwsNoLabelMap (by unfold WfMap LabelValid; decide)
      (by decide) (by decide) (by decide)⟩⟩

end LabelMapping
